import Mathlib

/-!
Shallow embedding of the AWS auto-shutdown lambda
(`src/terraform/lambda_function.py`) and of the age-report script
(`src/scripts/aws-shutdown-report.py`).

Modelling conventions:
* Timestamps are UTC epoch seconds as `Int`; `datetime` subtraction followed
  by `.days` is Python floor division by 86400, embedded as `Int.fdiv`.
* Python `float` cost literals are embedded as exact rationals (`Rat`); every
  cost in the source is a short decimal literal and no comparison in the
  claims depends on binary-float rounding.
* `boto3` calls are external collaborators: a fetch is a value of type
  `Except String (List _)` (an exception or a response), and every mutating
  call the executor issues is recorded in a `MutCall` trace instead of being
  performed.  Mutating calls always succeed in the model; the per-resource
  failure branches of the source only add error strings and are orthogonal
  to the claims proved here.
* Python dicts with string keys are association lists; AWS tag keys are
  unique, so first-match lookup agrees with dict lookup.
-/

namespace AwsShutdown

abbrev Tags := List (String × String)

/-- `get_age_days` (lambda_function.py:180 and aws-shutdown-report.py:14):
`(now - launch_time).days` is Python floor division of the difference in
seconds by 86400.  `now` is passed explicitly (the source reads the clock). -/
def get_age_days (now launch : Int) : Int :=
  (now - launch).fdiv 86400

/-- Kernel-computable model of Python's `str.lower()` as a character list:
`String.toLower` maps `Char.toLower` over the characters (see
`pyLower_eq_toLower`), but its core implementation recurses on byte
positions and does not reduce definitionally, so the embedding lowercases
the character list directly. -/
def pyLower (s : String) : List Char := s.toList.map Char.toLower

/-- Helper for the spec's `*`: the rest of the pattern may match any suffix
of the string (any sequence of characters is skipped). -/
def anySuffixMatch (k : List Char → Bool) : List Char → Bool
  | [] => k []
  | c :: s => k (c :: s) || anySuffixMatch k s

/-- Helper for the converted `.*` fragment as Python `re` interprets it
without `re.DOTALL`: a regex `.` never matches a newline, so `.*` may only
skip non-newline characters before handing over to the rest of the
pattern. -/
def anySuffixMatchNoNl (k : List Char → Bool) : List Char → Bool
  | [] => k []
  | c :: s => k (c :: s) || (if c = '\n' then false else anySuffixMatchNoNl k s)

/-- Start-anchored part of `re.match('^' + pattern.replace('*', '.*') + '$',
value, re.IGNORECASE)` (lambda_function.py:977-980), for patterns whose
characters other than `*` and `.` carry no regex meta-meaning: each `*` of
the original pattern became `.*` (any sequence of non-newline characters); a
`.` of the original pattern stays a regex dot and matches any single
character except a newline; every other character matches itself
case-insensitively.  This variant requires the pattern to consume the whole
string; `$`'s trailing-newline allowance is added by `reMatchConv`. -/
def reMatchAnchored : List Char → List Char → Bool
  | [], s => s.isEmpty
  | p :: ps, s =>
    if p = '*' then anySuffixMatchNoNl (fun t => reMatchAnchored ps t) s
    else
      match s with
      | [] => false
      | c :: s =>
        (if p = '.' then decide (c ≠ '\n') else p.toLower == c.toLower)
          && reMatchAnchored ps s

/-- Full semantics of the converted regex: Python's `$` (without
`re.MULTILINE`) matches at the end of the string and also just before a
newline that ends the string, so the converted pattern matches the value iff
it consumes the whole value, or the value ends with a newline and the
pattern consumes everything before that final newline. -/
def reMatchConv (ps s : List Char) : Bool :=
  reMatchAnchored ps s ||
    (match s.getLast? with
     | some c => if c = '\n' then reMatchAnchored ps s.dropLast else false
     | none => false)

/-- The spec's reading of a wildcard pattern ("anchored, case-insensitive
any-sequence match over the full string"): `*` matches any sequence and every
other character, `.` included, matches only itself case-insensitively. -/
def specGlobMatch : List Char → List Char → Bool
  | [], s => s.isEmpty
  | p :: ps, s =>
    if p = '*' then anySuffixMatch (fun t => specGlobMatch ps t) s
    else
      match s with
      | [] => false
      | c :: s => (p.toLower == c.toLower) && specGlobMatch ps s

/-- `match_pattern` (lambda_function.py:971-983): empty value or empty
pattern never match; a pattern containing `*` goes through the converted
regex; otherwise exact case-insensitive comparison. -/
def match_pattern (value pattern : String) : Bool :=
  if value.isEmpty || pattern.isEmpty then false
  else if pattern.toList.contains '*' then reMatchConv pattern.toList value.toList
  else pyLower value == pyLower pattern

/-- The pattern-matching contract as the spec words it, with no emptiness
escape hatch and with `*` as the only special character. -/
def specPatternMatch (value pattern : String) : Bool :=
  if pattern.toList.contains '*' then specGlobMatch pattern.toList value.toList
  else pyLower value == pyLower pattern

/-- Python's substring operator `needle in haystack` on strings: the needle
is a prefix of some suffix of the haystack. -/
def containsSub (needle : List Char) : List Char → Bool
  | [] => needle.isEmpty
  | c :: s => needle.isPrefixOf (c :: s) || containsSub needle s

/-- Semantics of `re.search(pat, value, re.IGNORECASE)`
(lambda_function.py:985-993) for the regex patterns the default ruleset
actually contains: a literal string, optionally anchored at the start with
`^` (`'^aws-'`, `'-prod-'`, `'-production-'`).  Anchored patterns are prefix
tests, unanchored ones substring tests, both case-insensitive. -/
def re_search_literal (pat value : String) : Bool :=
  if pat.startsWith "^" then
    (pyLower (pat.drop 1)).isPrefixOf (pyLower value)
  else
    containsSub (pyLower pat) (pyLower value)

/-- `match_regex_patterns` (lambda_function.py:985-993). -/
def match_regex_patterns (value : String) (patterns : List String) : Bool :=
  patterns.any (fun p => re_search_literal p value)

/-- `is_resource_excluded` (lambda_function.py:1056-1065): case-insensitive
substring containment against each non-empty exclusion pattern. -/
def is_resource_excluded (resource_name : String) (exclusion_patterns : List String) : Bool :=
  if resource_name.isEmpty then false
  else exclusion_patterns.any (fun p =>
    !p.isEmpty && containsSub (pyLower p) (pyLower resource_name))

/-- One provider type's protection rules (entries of
`DEFAULT_PROTECTION_RULES`, lambda_function.py:62-110). -/
structure ProtectionRules where
  whitelist_patterns : List String := []
  blacklist_patterns : List String := []
  protected_tags : List (String × List String) := []
  regex_patterns : List String := []
  protected_instance_types : List String := []
deriving DecidableEq

def default_ec2_rules : ProtectionRules :=
  { blacklist_patterns := ["*production*", "*critical*", "*do-not-delete*"]
    protected_tags := [("Environment", ["production", "prod"]),
                       ("Protected", ["true", "yes", "1"]),
                       ("ManagedBy", ["terraform", "cloudformation"])]
    protected_instance_types := ["t2.micro", "t3.micro"] }

def default_rds_rules : ProtectionRules :=
  { blacklist_patterns := ["*production*", "*master*", "*primary*"]
    protected_tags := [("Environment", ["production", "prod"]),
                       ("Protected", ["true", "yes", "1"])] }

def default_s3_rules : ProtectionRules :=
  { blacklist_patterns := ["*terraform-state*", "*cloudtrail*", "*logs*", "*backup*", "*config*"]
    protected_tags := [("Environment", ["production", "prod"]),
                       ("Protected", ["true", "yes", "1"])]
    regex_patterns := ["^aws-", "-prod-", "-production-"] }

def default_elb_rules : ProtectionRules :=
  { blacklist_patterns := ["*production*", "*critical*", "*public*"]
    protected_tags := [("Environment", ["production", "prod"])] }

def default_elasticsearch_rules : ProtectionRules :=
  { blacklist_patterns := ["*production*", "*logs*", "*analytics*"]
    protected_tags := [("Environment", ["production", "prod"])] }

/-- The loaded protection configuration (`PROTECTION_CONFIG` after
`load_protection_config`/`validate_protection_config`,
lambda_function.py:913-969): an enabled flag and one optional ruleset per
known provider type.  `validate_protection_config` only ever produces the
five keys below, so any other provider type has no entry. -/
structure ProtectionConfig where
  enabled : Bool := true
  ec2 : Option ProtectionRules := some default_ec2_rules
  rds : Option ProtectionRules := some default_rds_rules
  s3 : Option ProtectionRules := some default_s3_rules
  elb : Option ProtectionRules := some default_elb_rules
  elasticsearch : Option ProtectionRules := some default_elasticsearch_rules
deriving DecidableEq

/-- `PROTECTION_CONFIG['rules'].get(resource_type, {})`
(lambda_function.py:1019): missing provider types yield no rules. -/
def ProtectionConfig.rulesFor (c : ProtectionConfig) : String → Option ProtectionRules
  | "ec2" => c.ec2
  | "rds" => c.rds
  | "s3" => c.s3
  | "elb" => c.elb
  | "elasticsearch" => c.elasticsearch
  | _ => none

def DEFAULT_PROTECTION_CONFIG : ProtectionConfig := {}

/-- `check_tag_protection` (lambda_function.py:995-1007): first protected tag
key present in the resource's tags whose value equals (case-insensitively)
one of the protected values wins. -/
def check_tag_protection (tags : Tags) (protected_tags : List (String × List String)) :
    Bool × String :=
  if tags.isEmpty || protected_tags.isEmpty then (false, "")
  else
    match protected_tags.findSome? (fun kv =>
      match tags.lookup kv.fst with
      | none => none
      | some tv =>
        if kv.snd.any (fun pv => pyLower tv == pyLower pv) then
          some ("Protected by tag " ++ kv.fst ++ "=" ++ tv)
        else none) with
    | some reason => (true, reason)
    | none => (false, "")

/-- `is_resource_protected` (lambda_function.py:1009-1054).  `instance_type`
models the `additional_checks['instance_type']` entry; the source only reads
`additional_checks` when `resource_type == 'ec2'`, and the `ec2` caller
always passes a non-empty dict, so passing `none` for other types is
behaviourally identical. -/
def is_resource_protected (cfg : ProtectionConfig) (resource_type resource_name : String)
    (tags : Tags) (instance_type : Option String) : Bool × String :=
  if !cfg.enabled then (false, "")
  else
    match cfg.rulesFor resource_type with
    | none => (false, "")
    | some rules =>
      match rules.whitelist_patterns.find? (fun p => match_pattern resource_name p) with
      | some p => (true, "Whitelisted by pattern: " ++ p)
      | none =>
        match rules.blacklist_patterns.find? (fun p => match_pattern resource_name p) with
        | some p => (true, "Blacklisted by pattern: " ++ p)
        | none =>
          if match_regex_patterns resource_name rules.regex_patterns then
            (true, "Protected by regex pattern")
          else
            let tagRes :=
              if tags.isEmpty then (false, "")
              else check_tag_protection tags rules.protected_tags
            if tagRes.fst then tagRes
            else
              match instance_type with
              | some it =>
                if resource_type == "ec2" && it != "" &&
                    rules.protected_instance_types.contains it then
                  (true, "Protected instance type: " ++ it)
                else (false, "")
              | none => (false, "")

/-- One mutating cloud call issued by the executor (AWS api name + target). -/
structure MutCall where
  api : String
  target : String
deriving DecidableEq

/-- Output of one scan unit: candidates appended to the summary, error
strings appended to `summary['errors']`, the trace of mutating calls, and
the unit's shutdown/delete counter. -/
structure ScanOut (α : Type) where
  cands : List α := []
  errors : List String := []
  muts : List MutCall := []
  count : Nat := 0
deriving DecidableEq

def ScanOut.append (a b : ScanOut α) : ScanOut α :=
  { cands := a.cands ++ b.cands
    errors := a.errors ++ b.errors
    muts := a.muts ++ b.muts
    count := a.count + b.count }

/-- Fold a per-resource step over a fetched resource list, concatenating the
outputs in order. -/
def scanAll (f : β → ScanOut α) : List β → ScanOut α
  | [] => {}
  | x :: xs => (f x).append (scanAll f xs)

/-- A (running-state-filtered) EC2 instance descriptor as consumed by
`shutdown_old_ec2_instances`. -/
structure Ec2Instance where
  instanceId : String
  launchTime : Int
  state : String
  instanceType : String
  tags : Tags
deriving DecidableEq

/-- Entry of `summary['ec2_instances']` (lambda_function.py:253-259), plus
the `estimated_cost` field the prioritizer adds later. -/
structure Ec2Cand where
  id : String
  name : String
  region : String
  age_days : Int
  type_ : String
  estimated_cost : Option Rat := none
deriving DecidableEq

/-- `next((tag['Value'] for tag in tags if tag['Key'] == 'Name'), 'Unnamed')`. -/
def ec2_instance_name (i : Ec2Instance) : String :=
  (((i.tags.find? (fun t => t.fst == "Name")).map (fun t => t.snd))).getD "Unnamed"

def ec2ToCand (region : String) (now : Int) (i : Ec2Instance) : Ec2Cand :=
  { id := i.instanceId, name := ec2_instance_name i, region := region
    age_days := get_age_days now i.launchTime, type_ := i.instanceType }

/-- Body of the per-instance loop of `shutdown_old_ec2_instances`
(lambda_function.py:207-310): protection check, then age gate, then either
the mutating stop+tag pair or the dry-run counter. -/
def ec2_process_one (P : ProtectionConfig) (dryRun : Bool) (maxAge now : Int)
    (region : String) (i : Ec2Instance) : ScanOut Ec2Cand :=
  let prot := is_resource_protected P "ec2" (ec2_instance_name i) i.tags (some i.instanceType)
  if prot.fst then {}
  else if maxAge ≤ get_age_days now i.launchTime then
    let cand := ec2ToCand region now i
    if !dryRun then
      { cands := [cand]
        muts := [⟨"ec2.stop_instances", i.instanceId⟩, ⟨"ec2.create_tags", i.instanceId⟩]
        count := 1 }
    else { cands := [cand], count := 1 }
  else {}

/-- `shutdown_old_ec2_instances` (lambda_function.py:188-325).  The
`describe_instances` call carries a server-side `instance-state-name =
running` filter, embedded as the `state == "running"` filter on the fetched
list.  A fetch exception lands in the outer `except` and appends one scan
error. -/
def shutdown_old_ec2_instances (P : ProtectionConfig) (dryRun : Bool) (maxAge now : Int)
    (region : String) (fetch : Except String (List Ec2Instance)) : ScanOut Ec2Cand :=
  match fetch with
  | .error e => { errors := ["EC2 scan " ++ region ++ ": " ++ e] }
  | .ok insts =>
    scanAll (ec2_process_one P dryRun maxAge now region)
      (insts.filter (fun i => i.state == "running"))

structure RdsInstance where
  dbId : String
  arn : String
  createTime : Int
  status : String
  instanceClass : String
  engine : String
  tags : Tags
deriving DecidableEq

/-- Entry of `summary['rds_instances']` (lambda_function.py:391-396); the
source stores the instance class under the key `'type'`. -/
structure RdsCand where
  id : String
  region : String
  age_days : Int
  type_ : String
  estimated_cost : Option Rat := none
deriving DecidableEq

def rdsToCand (region : String) (now : Int) (d : RdsInstance) : RdsCand :=
  { id := d.dbId, region := region
    age_days := get_age_days now d.createTime, type_ := d.instanceClass }

/-- Body of the per-instance loop of `shutdown_old_rds_instances`
(lambda_function.py:344-446): only `available` instances are processed; the
`additional_checks` dict holds only an `'engine'` key, which
`is_resource_protected` never reads for a non-ec2 type, so `none` is passed
for the instance type. -/
def rds_process_one (P : ProtectionConfig) (dryRun : Bool) (maxAge now : Int)
    (region : String) (d : RdsInstance) : ScanOut RdsCand :=
  let prot := is_resource_protected P "rds" d.dbId d.tags none
  if prot.fst then {}
  else if maxAge ≤ get_age_days now d.createTime then
    let cand := rdsToCand region now d
    if !dryRun then
      { cands := [cand]
        muts := [⟨"rds.stop_db_instance", d.dbId⟩, ⟨"rds.add_tags_to_resource", d.arn⟩]
        count := 1 }
    else { cands := [cand], count := 1 }
  else {}

/-- `shutdown_old_rds_instances` (lambda_function.py:327-461). -/
def shutdown_old_rds_instances (P : ProtectionConfig) (dryRun : Bool) (maxAge now : Int)
    (region : String) (fetch : Except String (List RdsInstance)) : ScanOut RdsCand :=
  match fetch with
  | .error e => { errors := ["RDS scan " ++ region ++ ": " ++ e] }
  | .ok dbs =>
    scanAll (rds_process_one P dryRun maxAge now region)
      (dbs.filter (fun d => d.status == "available"))

structure EcsService where
  serviceName : String
  serviceArn : String
  createdAt : Int
  desiredCount : Nat
deriving DecidableEq

structure EcsCluster where
  clusterName : String
  services : List EcsService
deriving DecidableEq

/-- Entry of `summary['ecs_services']` (lambda_function.py:519-525). -/
structure EcsCand where
  name : String
  cluster : String
  region : String
  age_days : Int
  desired_count : Nat
deriving DecidableEq

def ecsToCand (region : String) (now : Int) (cluster : String) (s : EcsService) : EcsCand :=
  { name := s.serviceName, cluster := cluster, region := region
    age_days := get_age_days now s.createdAt, desired_count := s.desiredCount }

/-- Per-service body of `shutdown_old_ecs_services`
(lambda_function.py:498-573): services with a positive desired count and
sufficient age are scaled to zero; no protection check is performed. -/
def ecs_process_one (dryRun : Bool) (maxAge now : Int) (region : String)
    (cluster : String) (s : EcsService) : ScanOut EcsCand :=
  if 0 < s.desiredCount then
    if maxAge ≤ get_age_days now s.createdAt then
      let cand := ecsToCand region now cluster s
      if !dryRun then
        { cands := [cand], muts := [⟨"ecs.update_service_desired_count_0", s.serviceArn⟩]
          count := 1 }
      else { cands := [cand], count := 1 }
    else {}
  else {}

/-- `shutdown_old_ecs_services` (lambda_function.py:463-592).  Per-cluster
service listing is modelled as data on the cluster; a failure of the
top-level `list_clusters` call appends one scan error. -/
def shutdown_old_ecs_services (dryRun : Bool) (maxAge now : Int) (region : String)
    (fetch : Except String (List EcsCluster)) : ScanOut EcsCand :=
  match fetch with
  | .error e => { errors := ["ECS scan " ++ region ++ ": " ++ e] }
  | .ok clusters =>
    scanAll (fun cl => scanAll (ecs_process_one dryRun maxAge now region cl.clusterName)
      cl.services) clusters

structure NatGateway where
  natId : String
  createTime : Int
  state : String
deriving DecidableEq

/-- Entry of `summary['nat_gateways']` (lambda_function.py:632-636). -/
structure NatCand where
  id : String
  region : String
  age_days : Int
  estimated_cost : Option Rat := none
deriving DecidableEq

def natToCand (region : String) (now : Int) (n : NatGateway) : NatCand :=
  { id := n.natId, region := region, age_days := get_age_days now n.createTime }

/-- Per-gateway body of `cleanup_nat_gateways` (lambda_function.py:613-677):
age gate only; no protection check. -/
def nat_process_one (dryRun : Bool) (maxAge now : Int) (region : String)
    (n : NatGateway) : ScanOut NatCand :=
  if maxAge ≤ get_age_days now n.createTime then
    let cand := natToCand region now n
    if !dryRun then
      { cands := [cand], muts := [⟨"ec2.delete_nat_gateway", n.natId⟩], count := 1 }
    else { cands := [cand], count := 1 }
  else {}

/-- `cleanup_nat_gateways` (lambda_function.py:594-692).  The
`describe_nat_gateways` call carries a server-side `state = available`
filter, embedded as the state filter below. -/
def cleanup_nat_gateways (dryRun : Bool) (maxAge now : Int) (region : String)
    (fetch : Except String (List NatGateway)) : ScanOut NatCand :=
  match fetch with
  | .error e => { errors := ["NAT scan " ++ region ++ ": " ++ e] }
  | .ok nats =>
    scanAll (nat_process_one dryRun maxAge now region)
      (nats.filter (fun n => n.state == "available"))

structure LoadBalancerV2 where
  name : String
  arn : String
  type_ : String
  createdTime : Int
deriving DecidableEq

structure ClassicLB where
  name : String
  createdTime : Int
deriving DecidableEq

/-- Entry of `summary['load_balancers']` (lambda_function.py:1115-1121 for
ALB/NLB, 1197-1202 for classic, which has no `arn` key). -/
structure LbCand where
  name : String
  arn : Option String := none
  type_ : String
  region : String
  age_days : Int
deriving DecidableEq

def lbV2ToCand (region : String) (now : Int) (lb : LoadBalancerV2) : LbCand :=
  { name := lb.name, arn := some lb.arn, type_ := lb.type_
    region := region, age_days := get_age_days now lb.createdTime }

def lbClassicToCand (region : String) (now : Int) (lb : ClassicLB) : LbCand :=
  { name := lb.name, type_ := "classic", region := region
    age_days := get_age_days now lb.createdTime }

/-- Per-ALB/NLB body of `cleanup_old_load_balancers`
(lambda_function.py:1086-1162): exclusion-substring check, then age gate. -/
def lb_v2_process_one (exclusions : List String) (dryRun : Bool) (maxAge now : Int)
    (region : String) (lb : LoadBalancerV2) : ScanOut LbCand :=
  if is_resource_excluded lb.name exclusions then {}
  else if maxAge ≤ get_age_days now lb.createdTime then
    let cand := lbV2ToCand region now lb
    if !dryRun then
      { cands := [cand], muts := [⟨"elbv2.delete_load_balancer", lb.arn⟩], count := 1 }
    else { cands := [cand], count := 1 }
  else {}

/-- Per-classic-ELB body (lambda_function.py:1186-1219): same exclusion and
age gates; a delete failure here is only logged, never appended to the
summary's errors. -/
def lb_classic_process_one (exclusions : List String) (dryRun : Bool) (maxAge now : Int)
    (region : String) (lb : ClassicLB) : ScanOut LbCand :=
  if is_resource_excluded lb.name exclusions then {}
  else if maxAge ≤ get_age_days now lb.createdTime then
    let cand := lbClassicToCand region now lb
    if !dryRun then
      { cands := [cand], muts := [⟨"elb.delete_load_balancer", lb.name⟩], count := 1 }
    else { cands := [cand], count := 1 }
  else {}

/-- `cleanup_old_load_balancers` (lambda_function.py:1067-1222).  Two
separately guarded sections: the ALB/NLB section appends `"ELB scan
{region}: ..."` on a fetch failure; the classic section catches every
exception but only logs it — a classic fetch failure leaves no summary
error.  The classic loop reuses the counters `lb_processed`/`lb_deleted`
defined inside the first `try` after its fetch, so when the ALB/NLB fetch
failed, the first classic resource raises `NameError`, which the classic
`except` swallows: no classic candidate and no error is recorded.  The
`P : ProtectionConfig` argument mirrors the ambient `PROTECTION_CONFIG`
global, which this function never reads. -/
def cleanup_old_load_balancers (P : ProtectionConfig) (exclusions : List String)
    (dryRun : Bool) (maxAge now : Int) (region : String)
    (fetchV2 : Except String (List LoadBalancerV2))
    (fetchClassic : Except String (List ClassicLB)) : ScanOut LbCand :=
  let v2out : ScanOut LbCand :=
    match fetchV2 with
    | .error e => { errors := ["ELB scan " ++ region ++ ": " ++ e] }
    | .ok lbs => scanAll (lb_v2_process_one exclusions dryRun maxAge now region) lbs
  let classicOut : ScanOut LbCand :=
    match fetchV2, fetchClassic with
    | .ok _, .ok lbs => scanAll (lb_classic_process_one exclusions dryRun maxAge now region) lbs
    | _, _ => {}
  v2out.append classicOut

structure S3Bucket where
  name : String
  creationDate : Int
  region : String
  objects : List String
deriving DecidableEq

/-- Entry of `summary['s3_buckets']` (lambda_function.py:1271-1275). -/
structure S3Cand where
  name : String
  region : String
  age_days : Int
deriving DecidableEq

/-- Per-bucket body of `cleanup_old_s3_buckets`
(lambda_function.py:1241-1334): exclusion-substring check, age gate,
candidate recorded; in non-dry-run mode `list_objects_v2(MaxKeys=100)` is
issued, a listing of 100 keys aborts with a "not empty" error and no delete
call, a shorter non-empty listing is deleted object-wise before the bucket,
an empty listing goes straight to the bucket delete. -/
def s3ToCand (now : Int) (b : S3Bucket) : S3Cand :=
  { name := b.name, region := b.region, age_days := get_age_days now b.creationDate }

def s3_process_bucket (exclusions : List String) (dryRun : Bool) (maxAge now : Int)
    (b : S3Bucket) : ScanOut S3Cand :=
  if is_resource_excluded b.name exclusions then {}
  else if maxAge ≤ get_age_days now b.creationDate then
    let cand := s3ToCand now b
    if !dryRun then
      let listed := b.objects.take 100
      if 0 < listed.length then
        if listed.length < 100 then
          { cands := [cand]
            muts := [⟨"s3.delete_objects", b.name⟩, ⟨"s3.delete_bucket", b.name⟩]
            count := 1 }
        else
          { cands := [cand]
            errors := ["S3 " ++ b.name ++ ": Bucket not empty (>100 objects)"] }
      else
        { cands := [cand], muts := [⟨"s3.delete_bucket", b.name⟩], count := 1 }
    else { cands := [cand], count := 1 }
  else {}

/-- `cleanup_old_s3_buckets` (lambda_function.py:1224-1348); S3 is global
(one fetch, no region).  `P` mirrors the unread `PROTECTION_CONFIG`
global. -/
def cleanup_old_s3_buckets (P : ProtectionConfig) (exclusions : List String)
    (dryRun : Bool) (maxAge now : Int)
    (fetch : Except String (List S3Bucket)) : ScanOut S3Cand :=
  match fetch with
  | .error e => { errors := ["S3 scan: " ++ e] }
  | .ok buckets => scanAll (s3_process_bucket exclusions dryRun maxAge now) buckets

structure EsDomain where
  domainName : String
  created : Option Int
  processing : Bool
deriving DecidableEq

/-- Entry of `summary['elasticsearch_domains']` (lambda_function.py:1418-1423). -/
structure EsCand where
  name : String
  type_ : String
  region : String
  age_days : Int
deriving DecidableEq

/-- Per-domain body of `cleanup_old_elasticsearch_domains`
(lambda_function.py:1376-1467): exclusion-substring check on the domain
name, a missing creation time falls back to 30 days before now, and the
delete fires only when the age gate passes and the domain is not mid-
transition (`Processing` false). -/
def esToCand (region serviceType : String) (now : Int) (d : EsDomain) : EsCand :=
  { name := d.domainName, type_ := serviceType, region := region
    age_days := get_age_days now (d.created.getD (now - 30 * 86400)) }

def es_process_one (exclusions : List String) (dryRun : Bool) (maxAge now : Int)
    (region serviceType : String) (d : EsDomain) : ScanOut EsCand :=
  if is_resource_excluded d.domainName exclusions then {}
  else
    let createdTime := d.created.getD (now - 30 * 86400)
    let age := get_age_days now createdTime
    if maxAge ≤ age && !d.processing then
      let cand := esToCand region serviceType now d
      if !dryRun then
        { cands := [cand], muts := [⟨serviceType ++ ".delete_domain", d.domainName⟩]
          count := 1 }
      else { cands := [cand], count := 1 }
    else {}

/-- `cleanup_old_elasticsearch_domains` (lambda_function.py:1350-1486).
`serviceType` is `"opensearch"` or `"elasticsearch"` depending on which
client was constructed; the per-domain `describe` is modelled as data on the
domain (its failure is only logged).  `P` mirrors the unread
`PROTECTION_CONFIG` global. -/
def cleanup_old_elasticsearch_domains (P : ProtectionConfig) (exclusions : List String)
    (dryRun : Bool) (maxAge now : Int) (region serviceType : String)
    (fetch : Except String (List EsDomain)) : ScanOut EsCand :=
  match fetch with
  | .error e => { errors := ["ES scan " ++ region ++ ": " ++ e] }
  | .ok domains => scanAll (es_process_one exclusions dryRun maxAge now region serviceType) domains

def ec2_cost_table : List (String × Rat) :=
  [("t2.micro", 8.50), ("t2.small", 17.00), ("t2.medium", 34.00), ("t2.large", 68.00),
   ("t3.micro", 7.60), ("t3.small", 15.20), ("t3.medium", 30.40), ("t3.large", 60.80),
   ("m5.large", 70.00), ("m5.xlarge", 140.00), ("c5.large", 62.00), ("c5.xlarge", 124.00)]

def rds_cost_table : List (String × Rat) :=
  [("db.t2.micro", 13.00), ("db.t2.small", 26.00), ("db.t3.micro", 12.00),
   ("db.t3.small", 24.00), ("db.m5.large", 115.00), ("db.m5.xlarge", 230.00)]

def es_cost_table : List (String × Rat) :=
  [("t2.small.elasticsearch", 37.00), ("t2.medium.elasticsearch", 74.00),
   ("m5.large.elasticsearch", 142.00)]

/-- `get_resource_cost_estimate` (lambda_function.py:694-757).
`instance_key` is the value found under the type-specific key of
`resource_info` (`'instance_type'` for ec2/elasticsearch, `'instance_class'`
for rds); `none` models a Python `None` value or an absent key, for which
the dict lookup misses and the per-type default applies.  The `s3` branch is
evaluated with the default `size_gb = 10` (no caller ever passes a size). -/
def get_resource_cost_estimate (resource_type : String) (instance_key : Option String) : Rat :=
  if resource_type == "ec2" then
    match instance_key with
    | some k => (ec2_cost_table.lookup k).getD 50.00
    | none => (ec2_cost_table.lookup "t2.micro").getD 50.00
  else if resource_type == "rds" then
    match instance_key with
    | some k => (rds_cost_table.lookup k).getD 30.00
    | none => 30.00
  else if resource_type == "nat_gateway" then 45.00
  else if resource_type == "elb" then 25.00
  else if resource_type == "s3" then 10 * 0.023
  else if resource_type == "elasticsearch" then
    match instance_key with
    | some k => (es_cost_table.lookup k).getD 50.00
    | none => (es_cost_table.lookup "t2.small.elasticsearch").getD 50.00
  else 10.00

/-- Stable insertion of `x` into `l` for a descending order: `x` passes over
every element with a strictly larger key and lands before the first element
whose key is `≤` its own, so earlier-inserted equal-key elements stay in
front. -/
def insertDescBy (key : α → Rat) (x : α) : List α → List α
  | [] => [x]
  | y :: ys => if key x < key y then y :: insertDescBy key x ys else x :: y :: ys

/-- Extensional model of Python's
`sorted(resources, key=lambda x: x.get('estimated_cost', 0), reverse=True)`
(lambda_function.py:899-903): `sorted` is guaranteed stable, also with
`reverse=True`, and a stable descending sort is a unique function of its
input, so this insertion sort produces exactly the same list. -/
def sortDescBy (key : α → Rat) : List α → List α
  | [] => []
  | x :: xs => insertDescBy key x (sortDescBy key xs)

/-- Sort key `x.get('estimated_cost', 0)`. -/
def ec2CostKey (c : Ec2Cand) : Rat := c.estimated_cost.getD 0

def rdsCostKey (c : RdsCand) : Rat := c.estimated_cost.getD 0

def natCostKey (c : NatCand) : Rat := c.estimated_cost.getD 0

/-- Cost assignment of the ec2 branch of `prioritize_resources_by_cost`
(lambda_function.py:881-886): `{'instance_type': resource.get('type')}`. -/
def assignCostEc2 (c : Ec2Cand) : Ec2Cand :=
  { c with estimated_cost := some (get_resource_cost_estimate "ec2" (some c.type_)) }

/-- Cost assignment of the rds branch (lambda_function.py:887-892): the
summary entry has no `'class'` key (the class was stored under `'type'`), so
`resource.get('class')` is `None`, the cost-map lookup misses and the 30.00
default applies to every rds candidate. -/
def assignCostRds (c : RdsCand) : RdsCand :=
  { c with estimated_cost := some (get_resource_cost_estimate "rds" none) }

/-- Cost assignment of the nat branch (lambda_function.py:893-896). -/
def assignCostNat (c : NatCand) : NatCand :=
  { c with estimated_cost := some (get_resource_cost_estimate "nat_gateway" none) }

/-- Per-run counters mirrored from
`PERFORMANCE_METRICS['resource_counts']` (a process-global `defaultdict`). -/
structure Counts where
  ec2 : Nat := 0
  rds : Nat := 0
  ecs : Nat := 0
  nat : Nat := 0
  elb : Nat := 0
  s3 : Nat := 0
  elasticsearch : Nat := 0
deriving DecidableEq

/-- The reporting summary built by `lambda_handler`
(lambda_function.py:1535-1549), restricted to the fields the claims are
about; `resource_counts` snapshots
`dict(PERFORMANCE_METRICS['resource_counts'])` as placed into
`summary['performance_metrics']` (lambda_function.py:1630-1639). -/
structure Summary where
  ec2_instances : List Ec2Cand := []
  rds_instances : List RdsCand := []
  ecs_services : List EcsCand := []
  nat_gateways : List NatCand := []
  load_balancers : List LbCand := []
  s3_buckets : List S3Cand := []
  elasticsearch_domains : List EsCand := []
  errors : List String := []
  resource_counts : Counts := {}
  max_age_days : Int := 3
  dry_run : Bool := false
  correlation_id : String := ""
deriving DecidableEq

/-- `prioritize_resources_by_cost` (lambda_function.py:870-911): when cost
analysis is enabled, exactly the `ec2_instances`, `rds_instances` and
`nat_gateways` buckets receive an `estimated_cost` field and are re-sorted
descending by it; every other bucket is left untouched. -/
def prioritize_resources_by_cost (costAnalysisEnabled : Bool) (s : Summary) : Summary :=
  if !costAnalysisEnabled then s
  else
    { s with
      ec2_instances := sortDescBy ec2CostKey (s.ec2_instances.map assignCostEc2)
      rds_instances := sortDescBy rdsCostKey (s.rds_instances.map assignCostRds)
      nat_gateways := sortDescBy natCostKey (s.nat_gateways.map assignCostNat) }

/-- `should_cleanup_based_on_schedule` (lambda_function.py:837-868):
business-hours gate (9-17 UTC) when enabled, then the mode gate —
`cost_optimized` only logs and never blocks, `conservative` requires hour
22, anything else (e.g. `aggressive`) always runs. -/
def should_cleanup_based_on_schedule (businessHoursOnly : Bool) (schedulingMode : String)
    (hour : Nat) : Bool :=
  if businessHoursOnly && (hour < 9 || 17 ≤ hour) then false
  else if schedulingMode == "conservative" && hour != 22 then false
  else true

/-- UTC hour of an epoch-second instant. -/
def utcHour (now : Int) : Nat := ((now % 86400).toNat) / 3600

/-- The process-global mutable state the handler reads and writes:
`MAX_AGE_DAYS` and `DRY_RUN` (rebound via `global` on event overrides,
lambda_function.py:1517-1521), `CORRELATION_ID` (lambda_function.py:1498)
and `PERFORMANCE_METRICS['resource_counts']` (never reset between
invocations). -/
structure GlobalState where
  maxAgeDays : Int := 3
  dryRun : Bool := false
  correlationId : String := ""
  counts : Counts := {}
deriving DecidableEq

/-- Default `S3_BUCKET_EXCLUSIONS` (lambda_function.py:33). -/
def S3_BUCKET_EXCLUSIONS : List String := ["terraform-state", "cloudtrail", "logs", "backup"]

/-- Default `ELB_NAME_EXCLUSIONS` (lambda_function.py:34). -/
def ELB_NAME_EXCLUSIONS : List String := ["production", "critical"]

/-- Default `ES_DOMAIN_EXCLUSIONS` (lambda_function.py:35). -/
def ES_DOMAIN_EXCLUSIONS : List String := ["production", "logs"]

/-- Immutable environment configuration (lambda_function.py:18-35). -/
structure EnvConfig where
  regions : List String := ["us-east-1", "us-west-2", "ap-southeast-2"]
  businessHoursOnly : Bool := false
  schedulingMode : String := "cost_optimized"
  costAnalysisEnabled : Bool := true
  protection : ProtectionConfig := {}
  s3Exclusions : List String := S3_BUCKET_EXCLUSIONS
  elbExclusions : List String := ELB_NAME_EXCLUSIONS
  esExclusions : List String := ES_DOMAIN_EXCLUSIONS

/-- The inventory provider: each field models the region-indexed boto3
response (or exception) of one describe/list family. -/
structure Inventory where
  ec2 : String → Except String (List Ec2Instance)
  rds : String → Except String (List RdsInstance)
  ecs : String → Except String (List EcsCluster)
  nat : String → Except String (List NatGateway)
  elbv2 : String → Except String (List LoadBalancerV2)
  elbClassic : String → Except String (List ClassicLB)
  es : String → Except String (List EsDomain)
  s3 : Except String (List S3Bucket)

/-- The (key-filtered) invocation event payload. -/
structure Event where
  max_age_days : Option Int := none
  dry_run : Option Bool := none
deriving DecidableEq

/-- Invocation outcome: either the early scheduling skip
(lambda_function.py:1508-1515, carrying only message, correlation id and
scheduling mode) or the full run, paired with the trace of mutating calls
the run issued. -/
inductive HandlerResult where
  | skipped (message correlation_id scheduling_mode : String)
  | completed (summary : Summary) (muts : List MutCall)
deriving DecidableEq

def HandlerResult.mutations : HandlerResult → List MutCall
  | .skipped _ _ _ => []
  | .completed _ m => m

def HandlerResult.summaryErrors : HandlerResult → List String
  | .skipped _ _ _ => []
  | .completed s _ => s.errors

def HandlerResult.summaryEc2 : HandlerResult → List Ec2Cand
  | .skipped _ _ _ => []
  | .completed s _ => s.ec2_instances

def HandlerResult.summaryCounts : HandlerResult → Counts
  | .skipped _ _ _ => {}
  | .completed s _ => s.resource_counts

def HandlerResult.theSummary : HandlerResult → Summary
  | .skipped _ _ _ => {}
  | .completed s _ => s

/-- One iteration of the region loop (lambda_function.py:1552-1596): the six
regional scanners run in order, their candidates and errors are appended to
the summary, the mutation trace grows, and the global counters are updated:
`ec2/rds/ecs/nat` accumulate with `+=` at the end of each scanner's `try`,
while `elb` and `elasticsearch` are overwritten with `=` each region; the
`elb` assignment sits inside the ALB/NLB `try` (lambda_function.py:1173),
before the classic section runs, so it records the ALB/NLB count only.  A
scanner whose fetch failed never reaches its counter line, leaving the
previous value in place. -/
def processRegion (cfg : EnvConfig) (dryRun : Bool) (maxAge now : Int) (inv : Inventory)
    (acc : Summary × List MutCall × Counts) (region : String) :
    Summary × List MutCall × Counts :=
  let s := acc.fst
  let tr := acc.snd.fst
  let cnt := acc.snd.snd
  let e := shutdown_old_ec2_instances cfg.protection dryRun maxAge now region (inv.ec2 region)
  let r := shutdown_old_rds_instances cfg.protection dryRun maxAge now region (inv.rds region)
  let c := shutdown_old_ecs_services dryRun maxAge now region (inv.ecs region)
  let n := cleanup_nat_gateways dryRun maxAge now region (inv.nat region)
  let l := cleanup_old_load_balancers cfg.protection cfg.elbExclusions dryRun maxAge now region
            (inv.elbv2 region) (inv.elbClassic region)
  let d := cleanup_old_elasticsearch_domains cfg.protection cfg.esExclusions dryRun maxAge now
            region "opensearch" (inv.es region)
  ({ s with
      ec2_instances := s.ec2_instances ++ e.cands
      rds_instances := s.rds_instances ++ r.cands
      ecs_services := s.ecs_services ++ c.cands
      nat_gateways := s.nat_gateways ++ n.cands
      load_balancers := s.load_balancers ++ l.cands
      elasticsearch_domains := s.elasticsearch_domains ++ d.cands
      errors := s.errors ++ e.errors ++ r.errors ++ c.errors ++ n.errors ++ l.errors ++ d.errors },
   tr ++ e.muts ++ r.muts ++ c.muts ++ n.muts ++ l.muts ++ d.muts,
   { cnt with
      ec2 := cnt.ec2 + e.count
      rds := cnt.rds + r.count
      ecs := cnt.ecs + c.count
      nat := cnt.nat + n.count
      elb := match inv.elbv2 region with
        | .ok v2s =>
          (scanAll (lb_v2_process_one cfg.elbExclusions dryRun maxAge now region) v2s).count
        | .error _ => cnt.elb
      elasticsearch := match inv.es region with | .ok _ => d.count | .error _ => cnt.elasticsearch })

/-- `lambda_handler` (lambda_function.py:1488-1681).  Inputs beyond the
event: `freshUuid` is the `uuid4()` drawn for this invocation, `now` the
invocation instant, `inv` the inventory collaborator, `g` the surviving
process-global state.  Faithful ordering: the correlation id is refreshed,
then the scheduling gate may return the skip response *before* any scanning
and before the event overrides of `MAX_AGE_DAYS`/`DRY_RUN` are applied;
otherwise the overrides are written into the globals, the region loop and
the global S3 pass run, cost prioritization reorders the summary, and the
counter snapshot is attached. -/
def lambda_handler (cfg : EnvConfig) (g : GlobalState) (freshUuid : String) (now : Int)
    (ev : Event) (inv : Inventory) : HandlerResult × GlobalState :=
  let g := { g with correlationId := freshUuid }
  if !should_cleanup_based_on_schedule cfg.businessHoursOnly cfg.schedulingMode (utcHour now) then
    (.skipped "Cleanup skipped - outside scheduled window" g.correlationId cfg.schedulingMode, g)
  else
    let g := { g with maxAgeDays := ev.max_age_days.getD g.maxAgeDays
                      dryRun := ev.dry_run.getD g.dryRun }
    let init : Summary := { max_age_days := g.maxAgeDays, dry_run := g.dryRun
                            correlation_id := g.correlationId }
    let folded := cfg.regions.foldl (processRegion cfg g.dryRun g.maxAgeDays now inv)
                    (init, [], g.counts)
    let s1 := folded.fst
    let tr1 := folded.snd.fst
    let cnt1 := folded.snd.snd
    let so := cleanup_old_s3_buckets cfg.protection cfg.s3Exclusions g.dryRun g.maxAgeDays now inv.s3
    let s2 := { s1 with s3_buckets := s1.s3_buckets ++ so.cands
                        errors := s1.errors ++ so.errors }
    let cnt2 := { cnt1 with s3 := match inv.s3 with | .ok _ => so.count | .error _ => cnt1.s3 }
    let tr2 := tr1 ++ so.muts
    let s3 := prioritize_resources_by_cost cfg.costAnalysisEnabled s2
    let s4 := { s3 with resource_counts := cnt2 }
    (.completed s4 tr2, { g with counts := cnt2 })

/-! ### Spec-side eligibility predicates (the conjunction of §4.2: age gate
AND unprotected AND resource-specific liveness guard), one per provider
type.  The "protection evaluation" is the check each provider type performs:
`is_resource_protected` for compute/database (and, vacuously, for
container/NAT types, whose ruleset lookups are structurally empty), the
exclusion-substring check for load-balancer/object-store/search types. -/

def ec2_eligible (P : ProtectionConfig) (maxAge now : Int) (i : Ec2Instance) : Bool :=
  (i.state == "running")
  && !(is_resource_protected P "ec2" (ec2_instance_name i) i.tags (some i.instanceType)).fst
  && decide (maxAge ≤ get_age_days now i.launchTime)

def rds_eligible (P : ProtectionConfig) (maxAge now : Int) (d : RdsInstance) : Bool :=
  (d.status == "available")
  && !(is_resource_protected P "rds" d.dbId d.tags none).fst
  && decide (maxAge ≤ get_age_days now d.createTime)

def ecs_eligible (P : ProtectionConfig) (maxAge now : Int) (s : EcsService) : Bool :=
  decide (0 < s.desiredCount)
  && !(is_resource_protected P "ecs" s.serviceName [] none).fst
  && decide (maxAge ≤ get_age_days now s.createdAt)

def nat_eligible (P : ProtectionConfig) (maxAge now : Int) (n : NatGateway) : Bool :=
  (n.state == "available")
  && !(is_resource_protected P "nat_gateway" n.natId [] none).fst
  && decide (maxAge ≤ get_age_days now n.createTime)

def lb_v2_eligible (exclusions : List String) (maxAge now : Int) (lb : LoadBalancerV2) : Bool :=
  !is_resource_excluded lb.name exclusions
  && decide (maxAge ≤ get_age_days now lb.createdTime)

def lb_classic_eligible (exclusions : List String) (maxAge now : Int) (lb : ClassicLB) : Bool :=
  !is_resource_excluded lb.name exclusions
  && decide (maxAge ≤ get_age_days now lb.createdTime)

def s3_eligible (exclusions : List String) (maxAge now : Int) (b : S3Bucket) : Bool :=
  !is_resource_excluded b.name exclusions
  && decide (maxAge ≤ get_age_days now b.creationDate)

def es_eligible (exclusions : List String) (maxAge now : Int) (d : EsDomain) : Bool :=
  !is_resource_excluded d.domainName exclusions
  && decide (maxAge ≤ get_age_days now (d.created.getD (now - 30 * 86400)))
  && !d.processing

/-- Estimated monthly cost the code's estimator attributes to a
container-service candidate: `'ecs'` hits no branch of
`get_resource_cost_estimate`, so every such candidate costs the 10.00
unknown-resource default — one constant per bucket. -/
def ecsEstimatedCost (_ : EcsCand) : Rat := get_resource_cost_estimate "ecs" none

/-- Estimated monthly cost of a load-balancer candidate: the `'elb'` branch
is the flat 25.00, independent of the candidate. -/
def lbEstimatedCost (_ : LbCand) : Rat := get_resource_cost_estimate "elb" none

/-- Estimated monthly cost of an object-store candidate: the summary entry
carries no `size_gb`, so the default 10 GB rate applies to every bucket. -/
def s3EstimatedCost (_ : S3Cand) : Rat := get_resource_cost_estimate "s3" none

/-- Estimated monthly cost of a search-domain candidate: the summary entry
carries no instance type, so the per-type default applies uniformly. -/
def esEstimatedCost (_ : EsCand) : Rat := get_resource_cost_estimate "elasticsearch" none

/-- The regex metacharacters other than `*` that `match_pattern`'s
`pattern.replace('*', '.*')` conversion leaves with special meaning.  The
two brace characters are written by code point. -/
def regexMetaChars : List Char :=
  ['.', '^', '$', '+', '?', '(', ')', '[', ']', '|', '\\', Char.ofNat 123, Char.ofNat 125]

/-- The error strings one region loop iteration appends to the summary
(candidates of every scanner of that region). -/
def unitErrors (cfg : EnvConfig) (dryRun : Bool) (maxAge now : Int) (inv : Inventory)
    (region : String) : List String :=
  (shutdown_old_ec2_instances cfg.protection dryRun maxAge now region (inv.ec2 region)).errors
  ++ (shutdown_old_rds_instances cfg.protection dryRun maxAge now region (inv.rds region)).errors
  ++ (shutdown_old_ecs_services dryRun maxAge now region (inv.ecs region)).errors
  ++ (cleanup_nat_gateways dryRun maxAge now region (inv.nat region)).errors
  ++ (cleanup_old_load_balancers cfg.protection cfg.elbExclusions dryRun maxAge now region
        (inv.elbv2 region) (inv.elbClassic region)).errors
  ++ (cleanup_old_elasticsearch_domains cfg.protection cfg.esExclusions dryRun maxAge now
        region "opensearch" (inv.es region)).errors

/-! ### Concrete scenario used by the counterexamples and witnesses -/

/-- An unprotected, 10-day-old running compute instance. -/
def oldInstance : Ec2Instance :=
  { instanceId := "i-0abc", launchTime := -864000, state := "running"
    instanceType := "m5.large", tags := [] }

/-- Inventory with one classic-ELB listing failure in region `x`, one old
instance in region `y`, and everything else empty. -/
def invScenario : Inventory :=
  { ec2 := fun r => if r = "y" then .ok [oldInstance] else .ok []
    rds := fun _ => .ok []
    ecs := fun _ => .ok []
    nat := fun _ => .ok []
    elbv2 := fun _ => .ok []
    elbClassic := fun r => if r = "x" then .error "ScanError" else .ok []
    es := fun _ => .ok []
    s3 := .ok [] }

def cfgScenario : EnvConfig := { regions := ["x", "y"] }

def cfgConservative : EnvConfig := { regions := ["x", "y"], schedulingMode := "conservative" }

def gScenario : GlobalState := { dryRun := true }

/-- A 150-object bucket past the age threshold and matching no exclusion. -/
def bucket150 : S3Bucket :=
  { name := "old-data", creationDate := 0, region := "us-east-1"
    objects := List.replicate 150 "key" }

/-! ### Helper lemmas -/

theorem ScanOut.append_def (a b : ScanOut α) :
    a.append b = { cands := a.cands ++ b.cands, errors := a.errors ++ b.errors
                   muts := a.muts ++ b.muts, count := a.count + b.count } := rfl

theorem scanAll_nil (f : β → ScanOut α) : scanAll f [] = {} := rfl

theorem scanAll_cons (f : β → ScanOut α) (x : β) (xs : List β) :
    scanAll f (x :: xs) = (f x).append (scanAll f xs) := rfl

theorem scanAll_muts_nil (f : β → ScanOut α) (h : ∀ x, (f x).muts = []) :
    ∀ l, (scanAll f l).muts = []
  | [] => rfl
  | x :: xs => by
    simp [scanAll_cons, ScanOut.append, h x, scanAll_muts_nil f h xs]

theorem scanAll_count_eq_length (f : β → ScanOut α)
    (h : ∀ x, (f x).count = (f x).cands.length) :
    ∀ l, (scanAll f l).count = (scanAll f l).cands.length
  | [] => rfl
  | x :: xs => by
    simp [scanAll_cons, ScanOut.append, h x, scanAll_count_eq_length f h xs]

theorem scanAll_cands_congr (f g : β → ScanOut α) (h : ∀ x, (f x).cands = (g x).cands) :
    ∀ l, (scanAll f l).cands = (scanAll g l).cands
  | [] => rfl
  | x :: xs => by
    simp [scanAll_cons, ScanOut.append, h x, scanAll_cands_congr f g h xs]

/-- A per-resource step that contributes the mapped element exactly when an
eligibility test passes yields, over a whole fetch, the filtered-and-mapped
candidate list. -/
theorem scanAll_cands_filter_map (f : β → ScanOut α) (elig : β → Bool) (toCand : β → α)
    (h : ∀ x, (f x).cands = if elig x then [toCand x] else []) :
    ∀ l, (scanAll f l).cands = (l.filter elig).map toCand
  | [] => rfl
  | x :: xs => by
    by_cases hx : elig x <;>
      simp [scanAll_cons, ScanOut.append, h x, hx, List.filter_cons,
        scanAll_cands_filter_map f elig toCand h xs]

theorem mem_insertDescBy (key : α → Rat) (x a : α) :
    ∀ l : List α, a ∈ insertDescBy key x l ↔ a = x ∨ a ∈ l
  | [] => by simp [insertDescBy]
  | y :: ys => by
    by_cases hxy : key x < key y
    · simp only [insertDescBy, if_pos hxy, List.mem_cons, mem_insertDescBy key x a ys]
      tauto
    · simp only [insertDescBy, if_neg hxy, List.mem_cons]

theorem insertDescBy_pairwise (key : α → Rat) (x : α) (l : List α)
    (hl : l.Pairwise (fun a b => key b ≤ key a)) :
    (insertDescBy key x l).Pairwise (fun a b => key b ≤ key a) := by
  induction l with
  | nil => simp [insertDescBy]
  | cons y ys ih =>
    rcases List.pairwise_cons.mp hl with ⟨hy, hys⟩
    by_cases hxy : key x < key y
    · simp only [insertDescBy, if_pos hxy]
      refine List.pairwise_cons.mpr ⟨?_, ih hys⟩
      intro a ha
      rcases (mem_insertDescBy key x a ys).mp ha with rfl | ha
      · exact le_of_lt hxy
      · exact hy a ha
    · simp only [insertDescBy, if_neg hxy]
      refine List.pairwise_cons.mpr ⟨?_, hl⟩
      intro a ha
      rcases List.mem_cons.mp ha with rfl | ha
      · exact le_of_not_lt hxy
      · exact le_trans (hy a ha) (le_of_not_lt hxy)

theorem sortDescBy_pairwise (key : α → Rat) :
    ∀ l : List α, (sortDescBy key l).Pairwise (fun a b => key b ≤ key a)
  | [] => List.Pairwise.nil
  | x :: xs => insertDescBy_pairwise key x _ (sortDescBy_pairwise key xs)

theorem insertDescBy_filter_key (key : α → Rat) (x : α) (c : Rat) :
    ∀ l : List α, (insertDescBy key x l).filter (fun a => key a == c) =
      if key x == c then x :: l.filter (fun a => key a == c)
      else l.filter (fun a => key a == c)
  | [] => by
    by_cases h : key x == c <;> simp [insertDescBy, List.filter, h]
  | y :: ys => by
    by_cases hxy : key x < key y
    · have hne : key y == c → ¬(key x == c) := by
        intro hyc hxc
        rw [show key x = c from beq_iff_eq.mp hxc,
            show key y = c from beq_iff_eq.mp hyc] at hxy
        exact lt_irrefl _ hxy
      simp only [insertDescBy, if_pos hxy, List.filter_cons]
      by_cases hyc : key y == c
      · have hxc : ¬(key x == c) = true := hne hyc
        simp [hyc, hxc, insertDescBy_filter_key key x c ys]
      · simp [hyc, insertDescBy_filter_key key x c ys]
    · simp only [insertDescBy, if_neg hxy, List.filter_cons]

theorem sortDescBy_filter_key (key : α → Rat) (c : Rat) :
    ∀ l : List α, (sortDescBy key l).filter (fun a => key a == c) =
      l.filter (fun a => key a == c)
  | [] => rfl
  | x :: xs => by
    rw [sortDescBy, insertDescBy_filter_key, List.filter_cons]
    by_cases hxc : key x == c <;>
      simp [hxc, sortDescBy_filter_key key c xs]

theorem pairwise_of_forall {R : α → α → Prop} (h : ∀ a b, R a b) :
    ∀ l : List α, l.Pairwise R
  | [] => List.Pairwise.nil
  | _ :: xs => List.pairwise_cons.mpr ⟨fun b _ => h _ b, pairwise_of_forall h xs⟩

theorem containsSub_infix_iff (needle : List Char) :
    ∀ haystack, containsSub needle haystack = true ↔ needle <:+: haystack := by
  intro haystack
  induction haystack with
  | nil =>
    simp only [containsSub, List.isEmpty_iff]
    constructor
    · rintro rfl; exact List.infix_rfl
    · intro h; exact List.eq_nil_of_infix_nil h
  | cons c s ih =>
    simp only [containsSub, Bool.or_eq_true, List.isPrefixOf_iff_prefix, ih]
    constructor
    · rintro (h | h)
      · exact h.isInfix
      · exact h.trans (List.suffix_cons c s).isInfix
    · intro h
      rcases List.infix_cons_iff.mp h with h | h
      · exact Or.inl h
      · exact Or.inr h

/-- On newline-free strings the newline-restricted `.*` walker agrees with
the spec's unrestricted one, given that the continuations agree on
newline-free suffixes. -/
theorem anySuffixMatchNoNl_eq (k k' : List Char → Bool)
    (h : ∀ t, '\n' ∉ t → k t = k' t) :
    ∀ s, '\n' ∉ s → anySuffixMatchNoNl k s = anySuffixMatch k' s
  | [], hs => h [] hs
  | c :: s, hs => by
    have hc : ¬(c = '\n') := by
      intro hcc
      apply hs
      rw [← hcc]
      exact List.mem_cons_self _ _
    have hsn : '\n' ∉ s := fun hm => hs (List.mem_cons_of_mem _ hm)
    simp only [anySuffixMatchNoNl, anySuffixMatch, h (c :: s) hs, if_neg hc,
      anySuffixMatchNoNl_eq k k' h s hsn]

/-- On patterns without a regex dot and values without a newline, the
anchored converted-regex matcher and the spec's glob matcher agree. -/
theorem reMatchAnchored_eq_specGlobMatch :
    ∀ (ps : List Char), '.' ∉ ps → ∀ s, '\n' ∉ s → reMatchAnchored ps s = specGlobMatch ps s
  | [], _, _, _ => rfl
  | p :: ps, hdot, s, hs => by
    have hps : '.' ∉ ps := fun h => hdot (List.mem_cons_of_mem _ h)
    have hp : p ≠ '.' := fun h => hdot (h ▸ List.mem_cons_self _ _)
    by_cases hstar : p = '*'
    · subst hstar
      simp only [reMatchAnchored, specGlobMatch, if_pos rfl]
      exact anySuffixMatchNoNl_eq _ _
        (fun t ht => reMatchAnchored_eq_specGlobMatch ps hps t ht) s hs
    · simp only [reMatchAnchored, specGlobMatch, if_neg hstar]
      cases s with
      | nil => rfl
      | cons c s =>
        have hsn : '\n' ∉ s := fun hm => hs (List.mem_cons_of_mem _ hm)
        simp [if_neg hp, reMatchAnchored_eq_specGlobMatch ps hps s hsn]

/-- A value without a newline cannot use `$`'s trailing-newline allowance,
so the full converted-regex matcher collapses to the anchored one. -/
theorem reMatchConv_eq_anchored (ps s : List Char) (hs : '\n' ∉ s) :
    reMatchConv ps s = reMatchAnchored ps s := by
  unfold reMatchConv
  cases hlast : s.getLast? with
  | none => simp
  | some c =>
    have hc : ¬(c = '\n') := by
      intro hcc
      apply hs
      rw [← hcc]
      exact List.mem_of_getLast?_eq_some hlast
    simp [if_neg hc]

/-- Floor-division characterization of the age computation: `get_age_days`
is the unique `d` with `86400 * d ≤ now - launch < 86400 * (d + 1)`, i.e.
the floor of the difference measured in whole days. -/
theorem get_age_days_floor (now launch : Int) :
    86400 * get_age_days now launch ≤ now - launch ∧
      now - launch < 86400 * (get_age_days now launch + 1) := by
  constructor
  · have h := Int.fdiv_add_fmod (now - launch) 86400
    have h2 : 0 ≤ (now - launch).fmod 86400 := Int.fmod_nonneg' _ (by norm_num)
    unfold get_age_days
    omega
  · have h := Int.lt_fdiv_add_one_mul_self (now - launch) (b := 86400) (by norm_num)
    unfold get_age_days
    omega

/-- The embedding's `pyLower` agrees with the library `String.toLower`. -/
theorem pyLower_eq_toLower (s : String) : pyLower s = s.toLower.toList := by
  simp [pyLower, String.toLower, String.map_eq, String.toList]

/-- The ruleset lookup for the container-service type is structurally empty,
so the protection engine judges every such resource unprotected. -/
theorem ecs_protection_false (P : ProtectionConfig) (name : String) :
    (is_resource_protected P "ecs" name [] none).fst = false := by
  by_cases h : P.enabled <;>
    simp [is_resource_protected, ProtectionConfig.rulesFor, h]

/-- Likewise for NAT gateways. -/
theorem nat_protection_false (P : ProtectionConfig) (name : String) :
    (is_resource_protected P "nat_gateway" name [] none).fst = false := by
  by_cases h : P.enabled <;>
    simp [is_resource_protected, ProtectionConfig.rulesFor, h]

theorem ec2_process_one_dry (P : ProtectionConfig) (maxAge now : Int) (region : String)
    (i : Ec2Instance) :
    (ec2_process_one P true maxAge now region i).muts = []
    ∧ (ec2_process_one P true maxAge now region i).count
        = (ec2_process_one P true maxAge now region i).cands.length
    ∧ (ec2_process_one P true maxAge now region i).cands
        = (ec2_process_one P false maxAge now region i).cands := by
  unfold ec2_process_one
  by_cases h1 : (is_resource_protected P "ec2" (ec2_instance_name i) i.tags
      (some i.instanceType)).fst
  · simp [h1]
  · by_cases h2 : maxAge ≤ get_age_days now i.launchTime <;> simp [h1, h2]

theorem rds_process_one_dry (P : ProtectionConfig) (maxAge now : Int) (region : String)
    (d : RdsInstance) :
    (rds_process_one P true maxAge now region d).muts = []
    ∧ (rds_process_one P true maxAge now region d).count
        = (rds_process_one P true maxAge now region d).cands.length
    ∧ (rds_process_one P true maxAge now region d).cands
        = (rds_process_one P false maxAge now region d).cands := by
  unfold rds_process_one
  by_cases h1 : (is_resource_protected P "rds" d.dbId d.tags none).fst
  · simp [h1]
  · by_cases h2 : maxAge ≤ get_age_days now d.createTime <;> simp [h1, h2]

theorem ecs_process_one_dry (maxAge now : Int) (region cluster : String) (s : EcsService) :
    (ecs_process_one true maxAge now region cluster s).muts = []
    ∧ (ecs_process_one true maxAge now region cluster s).count
        = (ecs_process_one true maxAge now region cluster s).cands.length
    ∧ (ecs_process_one true maxAge now region cluster s).cands
        = (ecs_process_one false maxAge now region cluster s).cands := by
  unfold ecs_process_one
  by_cases h1 : 0 < s.desiredCount
  · by_cases h2 : maxAge ≤ get_age_days now s.createdAt <;> simp [h1, h2]
  · simp [h1]

theorem nat_process_one_dry (maxAge now : Int) (region : String) (n : NatGateway) :
    (nat_process_one true maxAge now region n).muts = []
    ∧ (nat_process_one true maxAge now region n).count
        = (nat_process_one true maxAge now region n).cands.length
    ∧ (nat_process_one true maxAge now region n).cands
        = (nat_process_one false maxAge now region n).cands := by
  unfold nat_process_one
  by_cases h1 : maxAge ≤ get_age_days now n.createTime <;> simp [h1]

theorem lb_v2_process_one_dry (ex : List String) (maxAge now : Int) (region : String)
    (lb : LoadBalancerV2) :
    (lb_v2_process_one ex true maxAge now region lb).muts = []
    ∧ (lb_v2_process_one ex true maxAge now region lb).count
        = (lb_v2_process_one ex true maxAge now region lb).cands.length
    ∧ (lb_v2_process_one ex true maxAge now region lb).cands
        = (lb_v2_process_one ex false maxAge now region lb).cands := by
  unfold lb_v2_process_one
  by_cases h1 : is_resource_excluded lb.name ex
  · simp [h1]
  · by_cases h2 : maxAge ≤ get_age_days now lb.createdTime <;> simp [h1, h2]

theorem lb_classic_process_one_dry (ex : List String) (maxAge now : Int) (region : String)
    (lb : ClassicLB) :
    (lb_classic_process_one ex true maxAge now region lb).muts = []
    ∧ (lb_classic_process_one ex true maxAge now region lb).count
        = (lb_classic_process_one ex true maxAge now region lb).cands.length
    ∧ (lb_classic_process_one ex true maxAge now region lb).cands
        = (lb_classic_process_one ex false maxAge now region lb).cands := by
  unfold lb_classic_process_one
  by_cases h1 : is_resource_excluded lb.name ex
  · simp [h1]
  · by_cases h2 : maxAge ≤ get_age_days now lb.createdTime <;> simp [h1, h2]

theorem s3_process_bucket_dry (ex : List String) (maxAge now : Int) (b : S3Bucket) :
    (s3_process_bucket ex true maxAge now b).muts = []
    ∧ (s3_process_bucket ex true maxAge now b).count
        = (s3_process_bucket ex true maxAge now b).cands.length
    ∧ (s3_process_bucket ex true maxAge now b).cands
        = (s3_process_bucket ex false maxAge now b).cands := by
  unfold s3_process_bucket
  by_cases h1 : is_resource_excluded b.name ex
  · simp [h1]
  · by_cases h2 : maxAge ≤ get_age_days now b.creationDate
    · refine ⟨by simp [h1, h2], by simp [h1, h2], ?_⟩
      simp [h1, h2]
      split
      · split <;> rfl
      · rfl
    · simp [h1, h2]

theorem es_process_one_dry (ex : List String) (maxAge now : Int) (region st : String)
    (d : EsDomain) :
    (es_process_one ex true maxAge now region st d).muts = []
    ∧ (es_process_one ex true maxAge now region st d).count
        = (es_process_one ex true maxAge now region st d).cands.length
    ∧ (es_process_one ex true maxAge now region st d).cands
        = (es_process_one ex false maxAge now region st d).cands := by
  unfold es_process_one
  by_cases h1 : is_resource_excluded d.domainName ex
  · simp [h1]
  · by_cases h2 : maxAge ≤ get_age_days now (d.created.getD (now - 2592000))
        ∧ d.processing = false <;> simp [h1, h2]

theorem shutdown_ec2_dry (P : ProtectionConfig) (maxAge now : Int) (region : String)
    (fetch : Except String (List Ec2Instance)) :
    (shutdown_old_ec2_instances P true maxAge now region fetch).muts = []
    ∧ (shutdown_old_ec2_instances P true maxAge now region fetch).count
        = (shutdown_old_ec2_instances P true maxAge now region fetch).cands.length
    ∧ (shutdown_old_ec2_instances P true maxAge now region fetch).cands
        = (shutdown_old_ec2_instances P false maxAge now region fetch).cands := by
  cases fetch with
  | error e => exact ⟨rfl, rfl, rfl⟩
  | ok insts =>
    exact ⟨scanAll_muts_nil _ (fun i => (ec2_process_one_dry P maxAge now region i).1) _,
           scanAll_count_eq_length _ (fun i => (ec2_process_one_dry P maxAge now region i).2.1) _,
           scanAll_cands_congr _ _ (fun i => (ec2_process_one_dry P maxAge now region i).2.2) _⟩

theorem shutdown_rds_dry (P : ProtectionConfig) (maxAge now : Int) (region : String)
    (fetch : Except String (List RdsInstance)) :
    (shutdown_old_rds_instances P true maxAge now region fetch).muts = []
    ∧ (shutdown_old_rds_instances P true maxAge now region fetch).count
        = (shutdown_old_rds_instances P true maxAge now region fetch).cands.length
    ∧ (shutdown_old_rds_instances P true maxAge now region fetch).cands
        = (shutdown_old_rds_instances P false maxAge now region fetch).cands := by
  cases fetch with
  | error e => exact ⟨rfl, rfl, rfl⟩
  | ok dbs =>
    exact ⟨scanAll_muts_nil _ (fun d => (rds_process_one_dry P maxAge now region d).1) _,
           scanAll_count_eq_length _ (fun d => (rds_process_one_dry P maxAge now region d).2.1) _,
           scanAll_cands_congr _ _ (fun d => (rds_process_one_dry P maxAge now region d).2.2) _⟩

theorem shutdown_ecs_dry (maxAge now : Int) (region : String)
    (fetch : Except String (List EcsCluster)) :
    (shutdown_old_ecs_services true maxAge now region fetch).muts = []
    ∧ (shutdown_old_ecs_services true maxAge now region fetch).count
        = (shutdown_old_ecs_services true maxAge now region fetch).cands.length
    ∧ (shutdown_old_ecs_services true maxAge now region fetch).cands
        = (shutdown_old_ecs_services false maxAge now region fetch).cands := by
  cases fetch with
  | error e => exact ⟨rfl, rfl, rfl⟩
  | ok clusters =>
    refine ⟨scanAll_muts_nil _ (fun cl => ?_) _,
            scanAll_count_eq_length _ (fun cl => ?_) _,
            scanAll_cands_congr _ _ (fun cl => ?_) _⟩
    · exact scanAll_muts_nil _
        (fun s => (ecs_process_one_dry maxAge now region cl.clusterName s).1) _
    · exact scanAll_count_eq_length _
        (fun s => (ecs_process_one_dry maxAge now region cl.clusterName s).2.1) _
    · exact scanAll_cands_congr _ _
        (fun s => (ecs_process_one_dry maxAge now region cl.clusterName s).2.2) _

theorem cleanup_nat_dry (maxAge now : Int) (region : String)
    (fetch : Except String (List NatGateway)) :
    (cleanup_nat_gateways true maxAge now region fetch).muts = []
    ∧ (cleanup_nat_gateways true maxAge now region fetch).count
        = (cleanup_nat_gateways true maxAge now region fetch).cands.length
    ∧ (cleanup_nat_gateways true maxAge now region fetch).cands
        = (cleanup_nat_gateways false maxAge now region fetch).cands := by
  cases fetch with
  | error e => exact ⟨rfl, rfl, rfl⟩
  | ok nats =>
    exact ⟨scanAll_muts_nil _ (fun n => (nat_process_one_dry maxAge now region n).1) _,
           scanAll_count_eq_length _ (fun n => (nat_process_one_dry maxAge now region n).2.1) _,
           scanAll_cands_congr _ _ (fun n => (nat_process_one_dry maxAge now region n).2.2) _⟩

theorem cleanup_lb_dry (P : ProtectionConfig) (ex : List String) (maxAge now : Int)
    (region : String) (fetchV2 : Except String (List LoadBalancerV2))
    (fetchClassic : Except String (List ClassicLB)) :
    (cleanup_old_load_balancers P ex true maxAge now region fetchV2 fetchClassic).muts = []
    ∧ (cleanup_old_load_balancers P ex true maxAge now region fetchV2 fetchClassic).count
        = (cleanup_old_load_balancers P ex true maxAge now region fetchV2 fetchClassic).cands.length
    ∧ (cleanup_old_load_balancers P ex true maxAge now region fetchV2 fetchClassic).cands
        = (cleanup_old_load_balancers P ex false maxAge now region fetchV2 fetchClassic).cands := by
  unfold cleanup_old_load_balancers
  cases fetchV2 with
  | error e =>
    cases fetchClassic with
    | error e2 => exact ⟨rfl, rfl, rfl⟩
    | ok lbs => exact ⟨rfl, rfl, rfl⟩
  | ok v2s =>
    cases fetchClassic with
    | error e2 =>
      simp only [ScanOut.append]
      exact ⟨by simp [scanAll_muts_nil _ (fun lb => (lb_v2_process_one_dry ex maxAge now region lb).1)],
        by simp [scanAll_count_eq_length _ (fun lb => (lb_v2_process_one_dry ex maxAge now region lb).2.1)],
        by simp [scanAll_cands_congr _ _ (fun lb => (lb_v2_process_one_dry ex maxAge now region lb).2.2)]⟩
    | ok lbs =>
      simp only [ScanOut.append]
      refine ⟨?_, ?_, ?_⟩
      · simp [scanAll_muts_nil _ (fun lb => (lb_v2_process_one_dry ex maxAge now region lb).1),
          scanAll_muts_nil _ (fun lb => (lb_classic_process_one_dry ex maxAge now region lb).1)]
      · simp [scanAll_count_eq_length _ (fun lb => (lb_v2_process_one_dry ex maxAge now region lb).2.1),
          scanAll_count_eq_length _ (fun lb => (lb_classic_process_one_dry ex maxAge now region lb).2.1)]
      · simp [scanAll_cands_congr _ _ (fun lb => (lb_v2_process_one_dry ex maxAge now region lb).2.2),
          scanAll_cands_congr _ _ (fun lb => (lb_classic_process_one_dry ex maxAge now region lb).2.2)]

theorem cleanup_s3_dry (P : ProtectionConfig) (ex : List String) (maxAge now : Int)
    (fetch : Except String (List S3Bucket)) :
    (cleanup_old_s3_buckets P ex true maxAge now fetch).muts = []
    ∧ (cleanup_old_s3_buckets P ex true maxAge now fetch).count
        = (cleanup_old_s3_buckets P ex true maxAge now fetch).cands.length
    ∧ (cleanup_old_s3_buckets P ex true maxAge now fetch).cands
        = (cleanup_old_s3_buckets P ex false maxAge now fetch).cands := by
  cases fetch with
  | error e => exact ⟨rfl, rfl, rfl⟩
  | ok buckets =>
    exact ⟨scanAll_muts_nil _ (fun b => (s3_process_bucket_dry ex maxAge now b).1) _,
           scanAll_count_eq_length _ (fun b => (s3_process_bucket_dry ex maxAge now b).2.1) _,
           scanAll_cands_congr _ _ (fun b => (s3_process_bucket_dry ex maxAge now b).2.2) _⟩

theorem cleanup_es_dry (P : ProtectionConfig) (ex : List String) (maxAge now : Int)
    (region st : String) (fetch : Except String (List EsDomain)) :
    (cleanup_old_elasticsearch_domains P ex true maxAge now region st fetch).muts = []
    ∧ (cleanup_old_elasticsearch_domains P ex true maxAge now region st fetch).count
        = (cleanup_old_elasticsearch_domains P ex true maxAge now region st fetch).cands.length
    ∧ (cleanup_old_elasticsearch_domains P ex true maxAge now region st fetch).cands
        = (cleanup_old_elasticsearch_domains P ex false maxAge now region st fetch).cands := by
  cases fetch with
  | error e => exact ⟨rfl, rfl, rfl⟩
  | ok domains =>
    exact ⟨scanAll_muts_nil _ (fun d => (es_process_one_dry ex maxAge now region st d).1) _,
           scanAll_count_eq_length _ (fun d => (es_process_one_dry ex maxAge now region st d).2.1) _,
           scanAll_cands_congr _ _ (fun d => (es_process_one_dry ex maxAge now region st d).2.2) _⟩

theorem foldl_preserves {σ : Type _} {β : Type _} (step : σ → β → σ) (p : σ → Prop)
    (h : ∀ acc b, p acc → p (step acc b)) :
    ∀ (l : List β) (acc : σ), p acc → p (l.foldl step acc)
  | [], _, ha => ha
  | b :: l, acc, ha => foldl_preserves step p h l (step acc b) (h acc b ha)

/-- In dry-run mode one region iteration leaves the mutation trace unchanged. -/
theorem processRegion_dry_muts (cfg : EnvConfig) (maxAge now : Int) (inv : Inventory)
    (acc : Summary × List MutCall × Counts) (region : String) :
    (processRegion cfg true maxAge now inv acc region).snd.fst = acc.snd.fst := by
  unfold processRegion
  simp [(shutdown_ec2_dry cfg.protection maxAge now region (inv.ec2 region)).1,
    (shutdown_rds_dry cfg.protection maxAge now region (inv.rds region)).1,
    (shutdown_ecs_dry maxAge now region (inv.ecs region)).1,
    (cleanup_nat_dry maxAge now region (inv.nat region)).1,
    (cleanup_lb_dry cfg.protection cfg.elbExclusions maxAge now region (inv.elbv2 region)
      (inv.elbClassic region)).1,
    (cleanup_es_dry cfg.protection cfg.esExclusions maxAge now region "opensearch"
      (inv.es region)).1]

/-- C1: with `dry_run` set in the event, the whole invocation issues zero
mutating cloud calls (stop, scale-to-zero, delete, tag-on-shutdown), and in
every scanner each eligible, unprotected candidate is still recorded and
counted — the dry-run shutdown counter equals the number of candidates and
the candidate lists coincide with the non-dry-run ones. -/
theorem c1_dry_run_no_mutations :
    (∀ (cfg : EnvConfig) (g : GlobalState) (uuid : String) (now : Int) (mad : Option Int)
        (inv : Inventory),
        (lambda_handler cfg g uuid now { max_age_days := mad, dry_run := some true } inv).fst.mutations
          = [])
    ∧ (∀ P maxAge now region fetch,
        (shutdown_old_ec2_instances P true maxAge now region fetch).muts = []
        ∧ (shutdown_old_ec2_instances P true maxAge now region fetch).count
            = (shutdown_old_ec2_instances P true maxAge now region fetch).cands.length
        ∧ (shutdown_old_ec2_instances P true maxAge now region fetch).cands
            = (shutdown_old_ec2_instances P false maxAge now region fetch).cands)
    ∧ (∀ P maxAge now region fetch,
        (shutdown_old_rds_instances P true maxAge now region fetch).muts = []
        ∧ (shutdown_old_rds_instances P true maxAge now region fetch).count
            = (shutdown_old_rds_instances P true maxAge now region fetch).cands.length
        ∧ (shutdown_old_rds_instances P true maxAge now region fetch).cands
            = (shutdown_old_rds_instances P false maxAge now region fetch).cands)
    ∧ (∀ maxAge now region fetch,
        (shutdown_old_ecs_services true maxAge now region fetch).muts = []
        ∧ (shutdown_old_ecs_services true maxAge now region fetch).count
            = (shutdown_old_ecs_services true maxAge now region fetch).cands.length
        ∧ (shutdown_old_ecs_services true maxAge now region fetch).cands
            = (shutdown_old_ecs_services false maxAge now region fetch).cands)
    ∧ (∀ maxAge now region fetch,
        (cleanup_nat_gateways true maxAge now region fetch).muts = []
        ∧ (cleanup_nat_gateways true maxAge now region fetch).count
            = (cleanup_nat_gateways true maxAge now region fetch).cands.length
        ∧ (cleanup_nat_gateways true maxAge now region fetch).cands
            = (cleanup_nat_gateways false maxAge now region fetch).cands)
    ∧ (∀ P ex maxAge now region fetchV2 fetchClassic,
        (cleanup_old_load_balancers P ex true maxAge now region fetchV2 fetchClassic).muts = []
        ∧ (cleanup_old_load_balancers P ex true maxAge now region fetchV2 fetchClassic).count
            = (cleanup_old_load_balancers P ex true maxAge now region fetchV2 fetchClassic).cands.length
        ∧ (cleanup_old_load_balancers P ex true maxAge now region fetchV2 fetchClassic).cands
            = (cleanup_old_load_balancers P ex false maxAge now region fetchV2 fetchClassic).cands)
    ∧ (∀ P ex maxAge now fetch,
        (cleanup_old_s3_buckets P ex true maxAge now fetch).muts = []
        ∧ (cleanup_old_s3_buckets P ex true maxAge now fetch).count
            = (cleanup_old_s3_buckets P ex true maxAge now fetch).cands.length
        ∧ (cleanup_old_s3_buckets P ex true maxAge now fetch).cands
            = (cleanup_old_s3_buckets P ex false maxAge now fetch).cands)
    ∧ (∀ P ex maxAge now region st fetch,
        (cleanup_old_elasticsearch_domains P ex true maxAge now region st fetch).muts = []
        ∧ (cleanup_old_elasticsearch_domains P ex true maxAge now region st fetch).count
            = (cleanup_old_elasticsearch_domains P ex true maxAge now region st fetch).cands.length
        ∧ (cleanup_old_elasticsearch_domains P ex true maxAge now region st fetch).cands
            = (cleanup_old_elasticsearch_domains P ex false maxAge now region st fetch).cands) := by
  refine ⟨?_, shutdown_ec2_dry, shutdown_rds_dry, shutdown_ecs_dry, cleanup_nat_dry,
    cleanup_lb_dry, cleanup_s3_dry, cleanup_es_dry⟩
  intro cfg g uuid now mad inv
  unfold lambda_handler
  by_cases hgate : should_cleanup_based_on_schedule cfg.businessHoursOnly cfg.schedulingMode
      (utcHour now) = true
  · simp only [hgate, Bool.not_true, Bool.false_eq_true, if_false]
    have htr := foldl_preserves
      (processRegion cfg true (mad.getD g.maxAgeDays) now inv)
      (fun acc : Summary × List MutCall × Counts => acc.snd.fst = [])
      (fun acc r hh => by
        show (processRegion cfg true (mad.getD g.maxAgeDays) now inv acc r).snd.fst = []
        rw [processRegion_dry_muts]; exact hh)
      cfg.regions
      ({ max_age_days := mad.getD g.maxAgeDays, dry_run := true
         correlation_id := uuid }, ([] : List MutCall), g.counts)
      rfl
    simp [HandlerResult.mutations, htr,
      (cleanup_s3_dry cfg.protection cfg.s3Exclusions (mad.getD g.maxAgeDays) now inv.s3).1]
  · simp [hgate, HandlerResult.mutations]

theorem scanAll_cands_flatten (f : β → ScanOut α) :
    ∀ l, (scanAll f l).cands = (l.map (fun x => (f x).cands)).flatten
  | [] => rfl
  | x :: xs => by
    simp [scanAll_cons, ScanOut.append, scanAll_cands_flatten f xs]

theorem ec2_process_one_cands (P : ProtectionConfig) (dry : Bool) (maxAge now : Int)
    (region : String) (i : Ec2Instance) :
    (ec2_process_one P dry maxAge now region i).cands
      = if !(is_resource_protected P "ec2" (ec2_instance_name i) i.tags (some i.instanceType)).fst
           && decide (maxAge ≤ get_age_days now i.launchTime)
        then [ec2ToCand region now i] else [] := by
  unfold ec2_process_one
  by_cases h1 : (is_resource_protected P "ec2" (ec2_instance_name i) i.tags
      (some i.instanceType)).fst
  · simp [h1]
  · by_cases h2 : maxAge ≤ get_age_days now i.launchTime <;>
      by_cases hd : dry <;> simp [h1, h2, hd]

/-- C2 characterization for the compute scanner. -/
theorem shutdown_ec2_cands (P : ProtectionConfig) (dry : Bool) (maxAge now : Int)
    (region : String) (insts : List Ec2Instance) :
    (shutdown_old_ec2_instances P dry maxAge now region (.ok insts)).cands
      = (insts.filter (ec2_eligible P maxAge now)).map (ec2ToCand region now) := by
  unfold shutdown_old_ec2_instances
  rw [scanAll_cands_filter_map _ _ _ (ec2_process_one_cands P dry maxAge now region),
    List.filter_filter]
  congr 1
  apply List.filter_congr
  intro i _
  unfold ec2_eligible
  cases hs : (i.state == "running") <;>
    cases hp : (is_resource_protected P "ec2" (ec2_instance_name i) i.tags
      (some i.instanceType)).fst <;>
    cases ha : decide (maxAge ≤ get_age_days now i.launchTime) <;> simp [hs, hp, ha]

theorem rds_process_one_cands (P : ProtectionConfig) (dry : Bool) (maxAge now : Int)
    (region : String) (d : RdsInstance) :
    (rds_process_one P dry maxAge now region d).cands
      = if !(is_resource_protected P "rds" d.dbId d.tags none).fst
           && decide (maxAge ≤ get_age_days now d.createTime)
        then [rdsToCand region now d] else [] := by
  unfold rds_process_one
  by_cases h1 : (is_resource_protected P "rds" d.dbId d.tags none).fst
  · simp [h1]
  · by_cases h2 : maxAge ≤ get_age_days now d.createTime <;>
      by_cases hd : dry <;> simp [h1, h2, hd]

/-- C2 characterization for the database scanner. -/
theorem shutdown_rds_cands (P : ProtectionConfig) (dry : Bool) (maxAge now : Int)
    (region : String) (dbs : List RdsInstance) :
    (shutdown_old_rds_instances P dry maxAge now region (.ok dbs)).cands
      = (dbs.filter (rds_eligible P maxAge now)).map (rdsToCand region now) := by
  unfold shutdown_old_rds_instances
  rw [scanAll_cands_filter_map _ _ _ (rds_process_one_cands P dry maxAge now region),
    List.filter_filter]
  congr 1
  apply List.filter_congr
  intro d _
  unfold rds_eligible
  cases hs : (d.status == "available") <;>
    cases hp : (is_resource_protected P "rds" d.dbId d.tags none).fst <;>
    cases ha : decide (maxAge ≤ get_age_days now d.createTime) <;> simp [hs, hp, ha]

theorem ecs_process_one_cands (dry : Bool) (maxAge now : Int) (region cluster : String)
    (s : EcsService) :
    (ecs_process_one dry maxAge now region cluster s).cands
      = if decide (0 < s.desiredCount) && decide (maxAge ≤ get_age_days now s.createdAt)
        then [ecsToCand region now cluster s] else [] := by
  unfold ecs_process_one
  by_cases h1 : 0 < s.desiredCount <;>
    by_cases h2 : maxAge ≤ get_age_days now s.createdAt <;>
    by_cases hd : dry <;> simp [h1, h2, hd]

/-- C2 characterization for the container-service scanner: the filter is the
full three-way conjunction; its protection conjunct is identically true
because the engine has no container ruleset (`ecs_protection_false`). -/
theorem shutdown_ecs_cands (P : ProtectionConfig) (dry : Bool) (maxAge now : Int)
    (region : String) (clusters : List EcsCluster) :
    (shutdown_old_ecs_services dry maxAge now region (.ok clusters)).cands
      = (clusters.map (fun cl =>
          (cl.services.filter (ecs_eligible P maxAge now)).map
            (ecsToCand region now cl.clusterName))).flatten := by
  unfold shutdown_old_ecs_services
  rw [scanAll_cands_flatten]
  congr 1
  apply List.map_congr_left
  intro cl _
  rw [scanAll_cands_filter_map _ _ _ (ecs_process_one_cands dry maxAge now region cl.clusterName)]
  congr 1
  apply List.filter_congr
  intro s _
  unfold ecs_eligible
  rw [ecs_protection_false]
  cases h1 : decide (0 < s.desiredCount) <;>
    cases h2 : decide (maxAge ≤ get_age_days now s.createdAt) <;> simp [h1, h2]

theorem nat_process_one_cands (dry : Bool) (maxAge now : Int) (region : String)
    (n : NatGateway) :
    (nat_process_one dry maxAge now region n).cands
      = if decide (maxAge ≤ get_age_days now n.createTime)
        then [natToCand region now n] else [] := by
  unfold nat_process_one
  by_cases h1 : maxAge ≤ get_age_days now n.createTime <;>
    by_cases hd : dry <;> simp [h1, hd]

/-- C2 characterization for the NAT-gateway scanner; as for containers, the
protection conjunct of `nat_eligible` is identically true. -/
theorem cleanup_nat_cands (P : ProtectionConfig) (dry : Bool) (maxAge now : Int)
    (region : String) (nats : List NatGateway) :
    (cleanup_nat_gateways dry maxAge now region (.ok nats)).cands
      = (nats.filter (nat_eligible P maxAge now)).map (natToCand region now) := by
  unfold cleanup_nat_gateways
  rw [scanAll_cands_filter_map _ _ _ (nat_process_one_cands dry maxAge now region),
    List.filter_filter]
  congr 1
  apply List.filter_congr
  intro n _
  unfold nat_eligible
  rw [nat_protection_false]
  cases hs : (n.state == "available") <;>
    cases ha : decide (maxAge ≤ get_age_days now n.createTime) <;> simp [hs, ha]

theorem lb_v2_process_one_cands (ex : List String) (dry : Bool) (maxAge now : Int)
    (region : String) (lb : LoadBalancerV2) :
    (lb_v2_process_one ex dry maxAge now region lb).cands
      = if lb_v2_eligible ex maxAge now lb then [lbV2ToCand region now lb] else [] := by
  unfold lb_v2_process_one lb_v2_eligible
  by_cases h1 : is_resource_excluded lb.name ex <;>
    by_cases h2 : maxAge ≤ get_age_days now lb.createdTime <;>
    by_cases hd : dry <;> simp [h1, h2, hd]

theorem lb_classic_process_one_cands (ex : List String) (dry : Bool) (maxAge now : Int)
    (region : String) (lb : ClassicLB) :
    (lb_classic_process_one ex dry maxAge now region lb).cands
      = if lb_classic_eligible ex maxAge now lb then [lbClassicToCand region now lb] else [] := by
  unfold lb_classic_process_one lb_classic_eligible
  by_cases h1 : is_resource_excluded lb.name ex <;>
    by_cases h2 : maxAge ≤ get_age_days now lb.createdTime <;>
    by_cases hd : dry <;> simp [h1, h2, hd]

/-- C2 characterization for the load-balancer scanner when both listings
succeed: ALB/NLB candidates followed by classic candidates, each filtered by
the exclusion check and the age gate. -/
theorem cleanup_lb_cands (P : ProtectionConfig) (ex : List String) (dry : Bool)
    (maxAge now : Int) (region : String) (v2s : List LoadBalancerV2) (cls : List ClassicLB) :
    (cleanup_old_load_balancers P ex dry maxAge now region (.ok v2s) (.ok cls)).cands
      = (v2s.filter (lb_v2_eligible ex maxAge now)).map (lbV2ToCand region now)
        ++ (cls.filter (lb_classic_eligible ex maxAge now)).map (lbClassicToCand region now) := by
  unfold cleanup_old_load_balancers
  simp only [ScanOut.append]
  rw [scanAll_cands_filter_map _ _ _ (lb_v2_process_one_cands ex dry maxAge now region),
    scanAll_cands_filter_map _ _ _ (lb_classic_process_one_cands ex dry maxAge now region)]

theorem s3_process_bucket_cands (ex : List String) (dry : Bool) (maxAge now : Int)
    (b : S3Bucket) :
    (s3_process_bucket ex dry maxAge now b).cands
      = if s3_eligible ex maxAge now b then [s3ToCand now b] else [] := by
  unfold s3_process_bucket s3_eligible
  by_cases h1 : is_resource_excluded b.name ex
  · simp [h1]
  · by_cases h2 : maxAge ≤ get_age_days now b.creationDate
    · by_cases hd : dry
      · simp [h1, h2, hd]
      · simp only [h1, h2, hd]
        simp [h1, h2]
        split
        · split <;> rfl
        · rfl
    · simp [h1, h2]

/-- C2 characterization for the object-store scanner: a bucket becomes a
candidate iff unexcluded and old enough — also when its later deletion is
aborted by the not-empty safety bound. -/
theorem cleanup_s3_cands (P : ProtectionConfig) (ex : List String) (dry : Bool)
    (maxAge now : Int) (buckets : List S3Bucket) :
    (cleanup_old_s3_buckets P ex dry maxAge now (.ok buckets)).cands
      = (buckets.filter (s3_eligible ex maxAge now)).map (s3ToCand now) := by
  unfold cleanup_old_s3_buckets
  rw [scanAll_cands_filter_map _ _ _ (s3_process_bucket_cands ex dry maxAge now)]

theorem es_process_one_cands (ex : List String) (dry : Bool) (maxAge now : Int)
    (region st : String) (d : EsDomain) :
    (es_process_one ex dry maxAge now region st d).cands
      = if es_eligible ex maxAge now d then [esToCand region st now d] else [] := by
  unfold es_process_one es_eligible
  by_cases h1 : is_resource_excluded d.domainName ex
  · simp [h1]
  · by_cases h2 : maxAge ≤ get_age_days now (d.created.getD (now - 30 * 86400)) <;>
      by_cases h3 : d.processing <;> by_cases hd : dry <;>
      simp [h1, h2, h3, hd] <;> (split <;> rfl)

/-- C2 characterization for the search-domain scanner: the liveness guard
`Processing = false` is a conjunct of the filter, so a mid-transition domain
is never a candidate regardless of age. -/
theorem cleanup_es_cands (P : ProtectionConfig) (ex : List String) (dry : Bool)
    (maxAge now : Int) (region st : String) (domains : List EsDomain) :
    (cleanup_old_elasticsearch_domains P ex dry maxAge now region st (.ok domains)).cands
      = (domains.filter (es_eligible ex maxAge now)).map (esToCand region st now) := by
  unfold cleanup_old_elasticsearch_domains
  rw [scanAll_cands_filter_map _ _ _ (es_process_one_cands ex dry maxAge now region st)]

/-- C2: for every provider type, a resource becomes an acted-on candidate
iff `max_age_days ≤ age_days` AND the protection evaluation that provider
type performs judges it unprotected AND the resource-specific liveness guard
holds (running / available / desired-count positive / `Processing` false).
The protection evaluation is `is_resource_protected` for compute and
database resources; for container services and NAT gateways the same engine
is (vacuously) unprotecting because it has no ruleset for those types; for
load balancers, object stores and search domains it is the
exclusion-substring check.  In particular a search domain with `Processing`
true is never acted on regardless of age (the `es_eligible` conjunct). -/
theorem c2_eligibility_conjunction :
    (∀ P dry maxAge now region insts,
        (shutdown_old_ec2_instances P dry maxAge now region (.ok insts)).cands
          = (insts.filter (ec2_eligible P maxAge now)).map (ec2ToCand region now))
    ∧ (∀ P dry maxAge now region dbs,
        (shutdown_old_rds_instances P dry maxAge now region (.ok dbs)).cands
          = (dbs.filter (rds_eligible P maxAge now)).map (rdsToCand region now))
    ∧ (∀ P dry maxAge now region clusters,
        (shutdown_old_ecs_services dry maxAge now region (.ok clusters)).cands
          = (clusters.map (fun cl =>
              (cl.services.filter (ecs_eligible P maxAge now)).map
                (ecsToCand region now cl.clusterName))).flatten)
    ∧ (∀ P dry maxAge now region nats,
        (cleanup_nat_gateways dry maxAge now region (.ok nats)).cands
          = (nats.filter (nat_eligible P maxAge now)).map (natToCand region now))
    ∧ (∀ P ex dry maxAge now region v2s cls,
        (cleanup_old_load_balancers P ex dry maxAge now region (.ok v2s) (.ok cls)).cands
          = (v2s.filter (lb_v2_eligible ex maxAge now)).map (lbV2ToCand region now)
            ++ (cls.filter (lb_classic_eligible ex maxAge now)).map (lbClassicToCand region now))
    ∧ (∀ P ex dry maxAge now buckets,
        (cleanup_old_s3_buckets P ex dry maxAge now (.ok buckets)).cands
          = (buckets.filter (s3_eligible ex maxAge now)).map (s3ToCand now))
    ∧ (∀ P ex dry maxAge now region st domains,
        (cleanup_old_elasticsearch_domains P ex dry maxAge now region st (.ok domains)).cands
          = (domains.filter (es_eligible ex maxAge now)).map (esToCand region st now)) :=
  ⟨shutdown_ec2_cands, shutdown_rds_cands, shutdown_ecs_cands, cleanup_nat_cands,
   cleanup_lb_cands, cleanup_s3_cands, cleanup_es_cands⟩

/-- C3: in non-dry-run mode the object-store executor lists at most 100
objects before deleting; a bucket holding 100 or more objects yields the
"not empty" conflict error and no delete call of any kind (but is still
recorded as a candidate); a bucket with fewer objects is deleted, the listed
objects first (when there are any) and the bucket after. -/
theorem c3_s3_safety_bound (ex : List String) (maxAge now : Int) (b : S3Bucket)
    (hexcl : is_resource_excluded b.name ex = false)
    (hage : maxAge ≤ get_age_days now b.creationDate) :
    (b.objects.take 100).length ≤ 100
    ∧ (100 ≤ b.objects.length →
        (s3_process_bucket ex false maxAge now b).muts = []
        ∧ (s3_process_bucket ex false maxAge now b).errors
            = ["S3 " ++ b.name ++ ": Bucket not empty (>100 objects)"]
        ∧ (s3_process_bucket ex false maxAge now b).cands = [s3ToCand now b])
    ∧ (b.objects.length < 100 →
        (s3_process_bucket ex false maxAge now b).errors = []
        ∧ (s3_process_bucket ex false maxAge now b).cands = [s3ToCand now b]
        ∧ (s3_process_bucket ex false maxAge now b).muts
            = (if b.objects.isEmpty then [] else [⟨"s3.delete_objects", b.name⟩])
              ++ [⟨"s3.delete_bucket", b.name⟩]) := by
  have hexcl' : ¬(is_resource_excluded b.name ex = true) := by simp [hexcl]
  refine ⟨by simp [List.length_take], ?_, ?_⟩
  · intro hlen
    have htake : (b.objects.take 100).length = 100 := by
      simp [List.length_take, Nat.min_eq_left hlen]
    unfold s3_process_bucket
    rw [if_neg hexcl', if_pos hage]
    simp only [Bool.not_false, if_pos rfl, htake]
    norm_num
  · intro hlen
    have htake : b.objects.take 100 = b.objects := List.take_of_length_le (le_of_lt hlen)
    unfold s3_process_bucket
    rw [if_neg hexcl', if_pos hage]
    simp only [Bool.not_false, if_pos rfl, htake]
    by_cases hemp : b.objects.isEmpty
    · have h0 : b.objects.length = 0 := by
        simp [List.isEmpty_iff.mp hemp]
      simp [h0, hemp]
    · have h0 : 0 < b.objects.length := by
        cases hob : b.objects with
        | nil => rw [hob] at hemp; simp at hemp
        | cons a l => simp [hob]
      simp [h0, hlen, hemp]

set_option maxRecDepth 4000 in
/-- Witness for C3 at a concrete 150-object bucket: the conflict error is
recorded and no delete call is issued. -/
theorem c3_s3_safety_bound_witness :
    (s3_process_bucket S3_BUCKET_EXCLUSIONS false 3 1000000 bucket150).muts = []
    ∧ (s3_process_bucket S3_BUCKET_EXCLUSIONS false 3 1000000 bucket150).errors
        = ["S3 " ++ bucket150.name ++ ": Bucket not empty (>100 objects)"]
    ∧ (s3_process_bucket S3_BUCKET_EXCLUSIONS false 3 1000000 bucket150).cands
        = [s3ToCand 1000000 bucket150] :=
  (c3_s3_safety_bound S3_BUCKET_EXCLUSIONS 3 1000000 bucket150 (by decide) (by decide)).2.1
    (by decide)

/-- Counterexample to C6 as stated: `match_pattern` is not the claimed
function on every name and pattern.  (1) With the empty name and empty
pattern, the pattern has no `*` and name equals pattern case-insensitively,
yet the source returns false (its emptiness guard).  (2) The pattern `a*.`
contains `*`, and under the anchored any-sequence interpretation its final
`.` is a literal dot, so it does not match `aXb`; the source's conversion
leaves `.` a regex metacharacter, so it does match.  (3) Names containing a
newline break the any-sequence reading in both directions even for the
meta-character-free pattern `a*b`: the converted `.*` never matches a
newline, so the source rejects the name `a`-newline-`b` which the
any-sequence interpretation accepts, and `$` matches just before a trailing
newline, so the source accepts the name `ab`-newline which the any-sequence
interpretation rejects. -/
theorem c6_counterexample :
    (match_pattern "" "" = false ∧ specPatternMatch "" "" = true)
    ∧ (match_pattern "aXb" "a*." = true ∧ specPatternMatch "aXb" "a*." = false)
    ∧ (match_pattern "a\nb" "a*b" = false ∧ specPatternMatch "a\nb" "a*b" = true)
    ∧ (match_pattern "ab\n" "a*b" = true ∧ specPatternMatch "ab\n" "a*b" = false) := by
  exact ⟨⟨rfl, rfl⟩, ⟨rfl, rfl⟩, ⟨rfl, rfl⟩, ⟨rfl, rfl⟩⟩

/-- C6 (amended): for non-empty names that contain no newline character and
non-empty patterns whose characters other than `*` carry no regex
meta-meaning, `match_pattern` is exactly the spec's contract — a pattern
with `*` is the anchored, case-insensitive any-sequence match over the full
name, and a pattern without `*` is case-insensitive equality; in particular
`prod-*` matches `prod-db1` and not `dev-prod1`. -/
theorem c6_pattern_matching :
    (∀ value pattern : String, value ≠ "" → '\n' ∉ value.toList → pattern ≠ "" →
        (∀ c ∈ pattern.toList, c ∉ regexMetaChars) →
        match_pattern value pattern = specPatternMatch value pattern)
    ∧ match_pattern "prod-db1" "prod-*" = true
    ∧ match_pattern "dev-prod1" "prod-*" = false := by
  refine ⟨?_, by decide, by decide⟩
  intro value pattern hv hvnl hp hmeta
  have hve : value.isEmpty = false := by
    rw [Bool.eq_false_iff]
    intro h
    exact hv ((String.isEmpty_iff value).mp h)
  have hpe : pattern.isEmpty = false := by
    rw [Bool.eq_false_iff]
    intro h
    exact hp ((String.isEmpty_iff pattern).mp h)
  have hdot : '.' ∉ pattern.toList := fun h =>
    hmeta '.' h (by decide)
  unfold match_pattern specPatternMatch
  rw [if_neg (by simp [hve, hpe])]
  by_cases hstar : pattern.toList.contains '*' = true
  · rw [if_pos hstar, if_pos hstar, reMatchConv_eq_anchored pattern.toList value.toList hvnl]
    exact reMatchAnchored_eq_specGlobMatch pattern.toList hdot value.toList hvnl
  · rw [if_neg hstar, if_neg hstar]

/-- Witness for C6 at a concrete case-insensitive wildcard match. -/
theorem c6_pattern_matching_witness :
    match_pattern "Prod-DB1" "prod-*" = specPatternMatch "Prod-DB1" "prod-*" :=
  c6_pattern_matching.1 "Prod-DB1" "prod-*" (by decide) (by decide) (by decide) (by decide)

/-- Counterexample to C7's "age_days is always ≥ 0": a creation timestamp
one second in the future yields `age_days = -1` (Python floor division of a
negative timedelta). -/
theorem c7_counterexample : get_age_days 0 1 = -1 ∧ get_age_days 0 1 < 0 := by decide

/-- C7 (amended): `age_days` is the floor of the difference in whole days
(characterized by the two-sided bound), it is nonnegative whenever the
resource was created at or before `now`, and with `max_age_days = 3` a
resource created `3 days + 1 second` ago has `age_days = 3` and passes the
age test while one created `2 days 23 hours` ago has `age_days = 2` and
fails it. -/
theorem c7_age_days :
    (∀ now launch : Int,
        86400 * get_age_days now launch ≤ now - launch
        ∧ now - launch < 86400 * (get_age_days now launch + 1))
    ∧ (∀ now launch : Int, launch ≤ now → 0 ≤ get_age_days now launch)
    ∧ (∀ now : Int, get_age_days now (now - (3 * 86400 + 1)) = 3
        ∧ 3 ≤ get_age_days now (now - (3 * 86400 + 1)))
    ∧ (∀ now : Int, get_age_days now (now - (2 * 86400 + 23 * 3600)) = 2
        ∧ ¬ 3 ≤ get_age_days now (now - (2 * 86400 + 23 * 3600))) := by
  refine ⟨get_age_days_floor, ?_, ?_, ?_⟩
  · intro now launch h
    exact Int.fdiv_nonneg (by omega) (by norm_num)
  · intro now
    have h : now - (now - (3 * 86400 + 1)) = 259201 := by ring
    unfold get_age_days
    rw [h]
    constructor <;> decide
  · intro now
    have h : now - (now - (2 * 86400 + 23 * 3600)) = 255600 := by ring
    unfold get_age_days
    rw [h]
    constructor <;> decide

/-- Witness for C7's nonnegativity clause at a concrete past timestamp. -/
theorem c7_age_days_witness : 0 ≤ get_age_days 1000000 999999 :=
  c7_age_days.2.1 1000000 999999 (by decide)

/-- C9: for the load-balancer, object-store and search-domain scanners,
exemption is decided solely by case-insensitive substring containment — for
any name and any list of (non-empty, as all configured defaults are)
exclusion strings, `is_resource_excluded` is true iff the lowercased name
contains one of the lowercased exclusion strings — and the protection rule
engine is never consulted: each of the three scanners is invariant under
the ambient protection configuration. -/
theorem c9_exclusion_semantics :
    (∀ (name : String) (pats : List String), (∀ p ∈ pats, p ≠ "") →
        (is_resource_excluded name pats = true ↔
          ∃ p ∈ pats, pyLower p <:+: pyLower name))
    ∧ (∀ P P' ex dry maxAge now region v2 cl,
        cleanup_old_load_balancers P ex dry maxAge now region v2 cl
          = cleanup_old_load_balancers P' ex dry maxAge now region v2 cl)
    ∧ (∀ P P' ex dry maxAge now fetch,
        cleanup_old_s3_buckets P ex dry maxAge now fetch
          = cleanup_old_s3_buckets P' ex dry maxAge now fetch)
    ∧ (∀ P P' ex dry maxAge now region st fetch,
        cleanup_old_elasticsearch_domains P ex dry maxAge now region st fetch
          = cleanup_old_elasticsearch_domains P' ex dry maxAge now region st fetch) := by
  refine ⟨?_, fun _ _ _ _ _ _ _ _ _ => rfl, fun _ _ _ _ _ _ _ => rfl,
    fun _ _ _ _ _ _ _ _ _ => rfl⟩
  intro name pats hne
  unfold is_resource_excluded
  by_cases hn : name.isEmpty
  · rw [if_pos hn]
    have hname : name = "" := (String.isEmpty_iff name).mp hn
    subst hname
    constructor
    · intro h
      exact absurd h (by decide)
    · rintro ⟨p, hp, hinf⟩
      have h0 : pyLower p = [] := List.eq_nil_of_infix_nil hinf
      have h1 : p.toList = [] := List.map_eq_nil_iff.mp h0
      exact (hne p hp (String.ext h1)).elim
  · rw [if_neg hn, List.any_eq_true]
    constructor
    · rintro ⟨p, hp, hcond⟩
      simp only [Bool.and_eq_true] at hcond
      exact ⟨p, hp, (containsSub_infix_iff _ _).mp hcond.2⟩
    · rintro ⟨p, hp, hinf⟩
      refine ⟨p, hp, ?_⟩
      simp only [Bool.and_eq_true]
      refine ⟨?_, (containsSub_infix_iff _ _).mpr hinf⟩
      have hpne : p.isEmpty = false := by
        rw [Bool.eq_false_iff]
        intro h
        exact hne p hp ((String.isEmpty_iff p).mp h)
      simp [hpne]

/-- Witness for C9 at a concrete bucket name hitting the `logs` exclusion. -/
theorem c9_exclusion_semantics_witness :
    is_resource_excluded "my-Logs-bucket" S3_BUCKET_EXCLUSIONS = true ↔
      ∃ p ∈ S3_BUCKET_EXCLUSIONS, pyLower p <:+: pyLower "my-Logs-bucket" :=
  c9_exclusion_semantics.1 "my-Logs-bucket" S3_BUCKET_EXCLUSIONS (by decide)

/-- C10: with cost analysis enabled the prioritizer leaves every
provider-type bucket stable-sorted descending by the candidate's estimated
cost.  The compute, database and NAT-gateway buckets are re-sorted by the
freshly assigned `estimated_cost` (sortedness via `Pairwise`, stability via
preservation of every equal-cost fibre in discovery order); the remaining
buckets are returned untouched, and for them the code's estimator assigns
every candidate of the bucket the same cost, so the untouched order is
(trivially) a stable descending sort as well.  The embedded `sorted(...,
reverse=True)` sends costs `[5, 50, 20]` to `[50, 20, 5]`. -/
theorem c10_prioritizer (s : Summary) :
    ((prioritize_resources_by_cost true s).ec2_instances.Pairwise
        (fun a b => ec2CostKey b ≤ ec2CostKey a)
      ∧ ∀ c : Rat,
          (prioritize_resources_by_cost true s).ec2_instances.filter
              (fun a => ec2CostKey a == c)
            = (s.ec2_instances.map assignCostEc2).filter (fun a => ec2CostKey a == c))
    ∧ ((prioritize_resources_by_cost true s).rds_instances.Pairwise
        (fun a b => rdsCostKey b ≤ rdsCostKey a)
      ∧ ∀ c : Rat,
          (prioritize_resources_by_cost true s).rds_instances.filter
              (fun a => rdsCostKey a == c)
            = (s.rds_instances.map assignCostRds).filter (fun a => rdsCostKey a == c))
    ∧ ((prioritize_resources_by_cost true s).nat_gateways.Pairwise
        (fun a b => natCostKey b ≤ natCostKey a)
      ∧ ∀ c : Rat,
          (prioritize_resources_by_cost true s).nat_gateways.filter
              (fun a => natCostKey a == c)
            = (s.nat_gateways.map assignCostNat).filter (fun a => natCostKey a == c))
    ∧ ((prioritize_resources_by_cost true s).ecs_services = s.ecs_services
      ∧ (prioritize_resources_by_cost true s).ecs_services.Pairwise
          (fun a b => ecsEstimatedCost b ≤ ecsEstimatedCost a))
    ∧ ((prioritize_resources_by_cost true s).load_balancers = s.load_balancers
      ∧ (prioritize_resources_by_cost true s).load_balancers.Pairwise
          (fun a b => lbEstimatedCost b ≤ lbEstimatedCost a))
    ∧ ((prioritize_resources_by_cost true s).s3_buckets = s.s3_buckets
      ∧ (prioritize_resources_by_cost true s).s3_buckets.Pairwise
          (fun a b => s3EstimatedCost b ≤ s3EstimatedCost a))
    ∧ ((prioritize_resources_by_cost true s).elasticsearch_domains = s.elasticsearch_domains
      ∧ (prioritize_resources_by_cost true s).elasticsearch_domains.Pairwise
          (fun a b => esEstimatedCost b ≤ esEstimatedCost a))
    ∧ sortDescBy id [5, 50, 20] = [50, 20, 5] :=
  ⟨⟨sortDescBy_pairwise _ _, fun c => sortDescBy_filter_key _ c _⟩,
   ⟨sortDescBy_pairwise _ _, fun c => sortDescBy_filter_key _ c _⟩,
   ⟨sortDescBy_pairwise _ _, fun c => sortDescBy_filter_key _ c _⟩,
   ⟨rfl, pairwise_of_forall (fun _ _ => le_refl _) _⟩,
   ⟨rfl, pairwise_of_forall (fun _ _ => le_refl _) _⟩,
   ⟨rfl, pairwise_of_forall (fun _ _ => le_refl _) _⟩,
   ⟨rfl, pairwise_of_forall (fun _ _ => le_refl _) _⟩,
   by decide⟩

theorem mem_sortDescBy (key : α → Rat) (a : α) :
    ∀ l, a ∈ sortDescBy key l ↔ a ∈ l
  | [] => Iff.rfl
  | x :: xs => by
    rw [sortDescBy, mem_insertDescBy, mem_sortDescBy key a xs, List.mem_cons]

theorem prioritize_errors (e : Bool) (s : Summary) :
    (prioritize_resources_by_cost e s).errors = s.errors := by
  cases e <;> simp [prioritize_resources_by_cost]

theorem prioritize_ecs (e : Bool) (s : Summary) :
    (prioritize_resources_by_cost e s).ecs_services = s.ecs_services := by
  cases e <;> simp [prioritize_resources_by_cost]

theorem prioritize_lb (e : Bool) (s : Summary) :
    (prioritize_resources_by_cost e s).load_balancers = s.load_balancers := by
  cases e <;> simp [prioritize_resources_by_cost]

theorem prioritize_s3 (e : Bool) (s : Summary) :
    (prioritize_resources_by_cost e s).s3_buckets = s.s3_buckets := by
  cases e <;> simp [prioritize_resources_by_cost]

theorem prioritize_es (e : Bool) (s : Summary) :
    (prioritize_resources_by_cost e s).elasticsearch_domains = s.elasticsearch_domains := by
  cases e <;> simp [prioritize_resources_by_cost]

theorem prioritize_ec2_enabled (s : Summary) :
    (prioritize_resources_by_cost true s).ec2_instances
      = sortDescBy ec2CostKey (s.ec2_instances.map assignCostEc2) := rfl

theorem prioritize_rds_enabled (s : Summary) :
    (prioritize_resources_by_cost true s).rds_instances
      = sortDescBy rdsCostKey (s.rds_instances.map assignCostRds) := rfl

theorem prioritize_nat_enabled (s : Summary) :
    (prioritize_resources_by_cost true s).nat_gateways
      = sortDescBy natCostKey (s.nat_gateways.map assignCostNat) := rfl

theorem foldl_field {σ β γ : Type _} (step : σ → β → σ) (f : σ → List γ) (u : β → List γ)
    (hstep : ∀ acc b, f (step acc b) = f acc ++ u b) :
    ∀ (l : List β) (acc : σ), f (l.foldl step acc) = f acc ++ (l.map u).flatten
  | [], acc => by simp
  | b :: l, acc => by
    rw [List.foldl_cons, foldl_field step f u hstep l (step acc b), hstep]
    simp [List.append_assoc]

theorem processRegion_errors (cfg : EnvConfig) (dry : Bool) (ma now : Int) (inv : Inventory)
    (acc : Summary × List MutCall × Counts) (r : String) :
    (processRegion cfg dry ma now inv acc r).fst.errors
      = acc.fst.errors ++ unitErrors cfg dry ma now inv r := by
  simp [processRegion, unitErrors, List.append_assoc]

theorem processRegion_ec2 (cfg : EnvConfig) (dry : Bool) (ma now : Int) (inv : Inventory)
    (acc : Summary × List MutCall × Counts) (r : String) :
    (processRegion cfg dry ma now inv acc r).fst.ec2_instances
      = acc.fst.ec2_instances
        ++ (shutdown_old_ec2_instances cfg.protection dry ma now r (inv.ec2 r)).cands := by
  simp [processRegion]

theorem processRegion_rds (cfg : EnvConfig) (dry : Bool) (ma now : Int) (inv : Inventory)
    (acc : Summary × List MutCall × Counts) (r : String) :
    (processRegion cfg dry ma now inv acc r).fst.rds_instances
      = acc.fst.rds_instances
        ++ (shutdown_old_rds_instances cfg.protection dry ma now r (inv.rds r)).cands := by
  simp [processRegion]

theorem processRegion_ecs (cfg : EnvConfig) (dry : Bool) (ma now : Int) (inv : Inventory)
    (acc : Summary × List MutCall × Counts) (r : String) :
    (processRegion cfg dry ma now inv acc r).fst.ecs_services
      = acc.fst.ecs_services
        ++ (shutdown_old_ecs_services dry ma now r (inv.ecs r)).cands := by
  simp [processRegion]

theorem processRegion_nat (cfg : EnvConfig) (dry : Bool) (ma now : Int) (inv : Inventory)
    (acc : Summary × List MutCall × Counts) (r : String) :
    (processRegion cfg dry ma now inv acc r).fst.nat_gateways
      = acc.fst.nat_gateways
        ++ (cleanup_nat_gateways dry ma now r (inv.nat r)).cands := by
  simp [processRegion]

theorem processRegion_lb (cfg : EnvConfig) (dry : Bool) (ma now : Int) (inv : Inventory)
    (acc : Summary × List MutCall × Counts) (r : String) :
    (processRegion cfg dry ma now inv acc r).fst.load_balancers
      = acc.fst.load_balancers
        ++ (cleanup_old_load_balancers cfg.protection cfg.elbExclusions dry ma now r
              (inv.elbv2 r) (inv.elbClassic r)).cands := by
  simp [processRegion]

theorem processRegion_es (cfg : EnvConfig) (dry : Bool) (ma now : Int) (inv : Inventory)
    (acc : Summary × List MutCall × Counts) (r : String) :
    (processRegion cfg dry ma now inv acc r).fst.elasticsearch_domains
      = acc.fst.elasticsearch_domains
        ++ (cleanup_old_elasticsearch_domains cfg.protection cfg.esExclusions dry ma now r
              "opensearch" (inv.es r)).cands := by
  simp [processRegion]

theorem processRegion_s3 (cfg : EnvConfig) (dry : Bool) (ma now : Int) (inv : Inventory)
    (acc : Summary × List MutCall × Counts) (r : String) :
    (processRegion cfg dry ma now inv acc r).fst.s3_buckets = acc.fst.s3_buckets := by
  simp [processRegion]

/-- C4 (amended): when the scheduling gate allows the run, every
provider-type/region scan failure is caught at its own scope and the run
always completes — the summary's error list is exactly the concatenation of
the per-region scanner errors followed by the global S3 scan errors (so a
failure in one unit contributes its own entries and nothing else), and every
unit's candidates appear in the final summary regardless of failures
elsewhere (verbatim for the untouched buckets, with the prioritizer's cost
annotation for the compute/database/NAT buckets).  One exception forces the
amendment of the claim: a failure of the classic load-balancer listing is
caught and logged but appended to no error list — the last conjunct shows it
leaves the scanner's errors exactly as if the classic listing had returned
nothing. -/
theorem c4_fault_isolation (cfg : EnvConfig) (g : GlobalState) (uuid : String) (now : Int)
    (inv : Inventory)
    (hgate : should_cleanup_based_on_schedule cfg.businessHoursOnly cfg.schedulingMode
        (utcHour now) = true)
    (hcost : cfg.costAnalysisEnabled = true) :
    ((lambda_handler cfg g uuid now {} inv).fst.theSummary.errors
        = (cfg.regions.map (unitErrors cfg g.dryRun g.maxAgeDays now inv)).flatten
          ++ (cleanup_old_s3_buckets cfg.protection cfg.s3Exclusions g.dryRun g.maxAgeDays now
                inv.s3).errors)
    ∧ ((lambda_handler cfg g uuid now {} inv).fst.theSummary.ecs_services
        = (cfg.regions.map (fun r =>
            (shutdown_old_ecs_services g.dryRun g.maxAgeDays now r (inv.ecs r)).cands)).flatten)
    ∧ ((lambda_handler cfg g uuid now {} inv).fst.theSummary.load_balancers
        = (cfg.regions.map (fun r =>
            (cleanup_old_load_balancers cfg.protection cfg.elbExclusions g.dryRun g.maxAgeDays
              now r (inv.elbv2 r) (inv.elbClassic r)).cands)).flatten)
    ∧ ((lambda_handler cfg g uuid now {} inv).fst.theSummary.elasticsearch_domains
        = (cfg.regions.map (fun r =>
            (cleanup_old_elasticsearch_domains cfg.protection cfg.esExclusions g.dryRun
              g.maxAgeDays now r "opensearch" (inv.es r)).cands)).flatten)
    ∧ ((lambda_handler cfg g uuid now {} inv).fst.theSummary.s3_buckets
        = (cleanup_old_s3_buckets cfg.protection cfg.s3Exclusions g.dryRun g.maxAgeDays now
            inv.s3).cands)
    ∧ (∀ r ∈ cfg.regions,
        ∀ c ∈ (shutdown_old_ec2_instances cfg.protection g.dryRun g.maxAgeDays now r
            (inv.ec2 r)).cands,
          assignCostEc2 c ∈ (lambda_handler cfg g uuid now {} inv).fst.theSummary.ec2_instances)
    ∧ (∀ r ∈ cfg.regions,
        ∀ c ∈ (shutdown_old_rds_instances cfg.protection g.dryRun g.maxAgeDays now r
            (inv.rds r)).cands,
          assignCostRds c ∈ (lambda_handler cfg g uuid now {} inv).fst.theSummary.rds_instances)
    ∧ (∀ r ∈ cfg.regions,
        ∀ c ∈ (cleanup_nat_gateways g.dryRun g.maxAgeDays now r (inv.nat r)).cands,
          assignCostNat c ∈ (lambda_handler cfg g uuid now {} inv).fst.theSummary.nat_gateways)
    ∧ (∀ (region e : String),
        (cleanup_old_load_balancers cfg.protection cfg.elbExclusions g.dryRun g.maxAgeDays now
          region (inv.elbv2 region) (.error e)).errors
        = (cleanup_old_load_balancers cfg.protection cfg.elbExclusions g.dryRun g.maxAgeDays now
            region (inv.elbv2 region) (.ok [])).errors) := by
  have hinit :
      (lambda_handler cfg g uuid now {} inv).fst.theSummary
        = { prioritize_resources_by_cost cfg.costAnalysisEnabled
              { (cfg.regions.foldl (processRegion cfg g.dryRun g.maxAgeDays now inv)
                  ({ max_age_days := g.maxAgeDays, dry_run := g.dryRun
                     correlation_id := uuid }, ([] : List MutCall), g.counts)).fst with
                s3_buckets :=
                  (cfg.regions.foldl (processRegion cfg g.dryRun g.maxAgeDays now inv)
                    ({ max_age_days := g.maxAgeDays, dry_run := g.dryRun
                       correlation_id := uuid }, ([] : List MutCall), g.counts)).fst.s3_buckets
                  ++ (cleanup_old_s3_buckets cfg.protection cfg.s3Exclusions g.dryRun
                        g.maxAgeDays now inv.s3).cands
                errors :=
                  (cfg.regions.foldl (processRegion cfg g.dryRun g.maxAgeDays now inv)
                    ({ max_age_days := g.maxAgeDays, dry_run := g.dryRun
                       correlation_id := uuid }, ([] : List MutCall), g.counts)).fst.errors
                  ++ (cleanup_old_s3_buckets cfg.protection cfg.s3Exclusions g.dryRun
                        g.maxAgeDays now inv.s3).errors } with
            resource_counts :=
              { (cfg.regions.foldl (processRegion cfg g.dryRun g.maxAgeDays now inv)
                  ({ max_age_days := g.maxAgeDays, dry_run := g.dryRun
                     correlation_id := uuid }, ([] : List MutCall), g.counts)).snd.snd with
                s3 := match inv.s3 with
                  | .ok _ => (cleanup_old_s3_buckets cfg.protection cfg.s3Exclusions g.dryRun
                      g.maxAgeDays now inv.s3).count
                  | .error _ =>
                      (cfg.regions.foldl (processRegion cfg g.dryRun g.maxAgeDays now inv)
                        ({ max_age_days := g.maxAgeDays, dry_run := g.dryRun
                           correlation_id := uuid }, ([] : List MutCall), g.counts)).snd.snd.s3 } } := by
    unfold lambda_handler
    simp only [hgate, Bool.not_true, Bool.false_eq_true, if_false]
    rfl
  have herr :
      (cfg.regions.foldl (processRegion cfg g.dryRun g.maxAgeDays now inv)
        ({ max_age_days := g.maxAgeDays, dry_run := g.dryRun
           correlation_id := uuid }, ([] : List MutCall), g.counts)).fst.errors
      = ([] : List String)
        ++ (cfg.regions.map (unitErrors cfg g.dryRun g.maxAgeDays now inv)).flatten :=
    foldl_field _ (fun acc => acc.fst.errors) _
      (fun acc r => processRegion_errors cfg g.dryRun g.maxAgeDays now inv acc r) cfg.regions _
  have hecs :
      (cfg.regions.foldl (processRegion cfg g.dryRun g.maxAgeDays now inv)
        ({ max_age_days := g.maxAgeDays, dry_run := g.dryRun
           correlation_id := uuid }, ([] : List MutCall), g.counts)).fst.ecs_services
      = ([] : List EcsCand)
        ++ (cfg.regions.map (fun r =>
            (shutdown_old_ecs_services g.dryRun g.maxAgeDays now r (inv.ecs r)).cands)).flatten :=
    foldl_field _ (fun acc => acc.fst.ecs_services) _
      (fun acc r => processRegion_ecs cfg g.dryRun g.maxAgeDays now inv acc r) cfg.regions _
  have hlb :
      (cfg.regions.foldl (processRegion cfg g.dryRun g.maxAgeDays now inv)
        ({ max_age_days := g.maxAgeDays, dry_run := g.dryRun
           correlation_id := uuid }, ([] : List MutCall), g.counts)).fst.load_balancers
      = ([] : List LbCand)
        ++ (cfg.regions.map (fun r =>
            (cleanup_old_load_balancers cfg.protection cfg.elbExclusions g.dryRun g.maxAgeDays
              now r (inv.elbv2 r) (inv.elbClassic r)).cands)).flatten :=
    foldl_field _ (fun acc => acc.fst.load_balancers) _
      (fun acc r => processRegion_lb cfg g.dryRun g.maxAgeDays now inv acc r) cfg.regions _
  have hes :
      (cfg.regions.foldl (processRegion cfg g.dryRun g.maxAgeDays now inv)
        ({ max_age_days := g.maxAgeDays, dry_run := g.dryRun
           correlation_id := uuid }, ([] : List MutCall), g.counts)).fst.elasticsearch_domains
      = ([] : List EsCand)
        ++ (cfg.regions.map (fun r =>
            (cleanup_old_elasticsearch_domains cfg.protection cfg.esExclusions g.dryRun
              g.maxAgeDays now r "opensearch" (inv.es r)).cands)).flatten :=
    foldl_field _ (fun acc => acc.fst.elasticsearch_domains) _
      (fun acc r => processRegion_es cfg g.dryRun g.maxAgeDays now inv acc r) cfg.regions _
  have hs3b :
      (cfg.regions.foldl (processRegion cfg g.dryRun g.maxAgeDays now inv)
        ({ max_age_days := g.maxAgeDays, dry_run := g.dryRun
           correlation_id := uuid }, ([] : List MutCall), g.counts)).fst.s3_buckets
      = ([] : List S3Cand) ++ (cfg.regions.map (fun _ => ([] : List S3Cand))).flatten :=
    foldl_field (processRegion cfg g.dryRun g.maxAgeDays now inv)
      (fun acc => acc.fst.s3_buckets) (fun _ => ([] : List S3Cand))
      (fun acc r => by
        show (processRegion cfg g.dryRun g.maxAgeDays now inv acc r).fst.s3_buckets
          = acc.fst.s3_buckets ++ []
        rw [processRegion_s3]
        exact (List.append_nil _).symm) cfg.regions _
  have hec2 :
      (cfg.regions.foldl (processRegion cfg g.dryRun g.maxAgeDays now inv)
        ({ max_age_days := g.maxAgeDays, dry_run := g.dryRun
           correlation_id := uuid }, ([] : List MutCall), g.counts)).fst.ec2_instances
      = ([] : List Ec2Cand)
        ++ (cfg.regions.map (fun r =>
            (shutdown_old_ec2_instances cfg.protection g.dryRun g.maxAgeDays now r
              (inv.ec2 r)).cands)).flatten :=
    foldl_field _ (fun acc => acc.fst.ec2_instances) _
      (fun acc r => processRegion_ec2 cfg g.dryRun g.maxAgeDays now inv acc r) cfg.regions _
  have hrds :
      (cfg.regions.foldl (processRegion cfg g.dryRun g.maxAgeDays now inv)
        ({ max_age_days := g.maxAgeDays, dry_run := g.dryRun
           correlation_id := uuid }, ([] : List MutCall), g.counts)).fst.rds_instances
      = ([] : List RdsCand)
        ++ (cfg.regions.map (fun r =>
            (shutdown_old_rds_instances cfg.protection g.dryRun g.maxAgeDays now r
              (inv.rds r)).cands)).flatten :=
    foldl_field _ (fun acc => acc.fst.rds_instances) _
      (fun acc r => processRegion_rds cfg g.dryRun g.maxAgeDays now inv acc r) cfg.regions _
  have hnat :
      (cfg.regions.foldl (processRegion cfg g.dryRun g.maxAgeDays now inv)
        ({ max_age_days := g.maxAgeDays, dry_run := g.dryRun
           correlation_id := uuid }, ([] : List MutCall), g.counts)).fst.nat_gateways
      = ([] : List NatCand)
        ++ (cfg.regions.map (fun r =>
            (cleanup_nat_gateways g.dryRun g.maxAgeDays now r (inv.nat r)).cands)).flatten :=
    foldl_field _ (fun acc => acc.fst.nat_gateways) _
      (fun acc r => processRegion_nat cfg g.dryRun g.maxAgeDays now inv acc r) cfg.regions _
  refine ⟨?_, ?_, ?_, ?_, ?_, ?_, ?_, ?_, ?_⟩
  · rw [hinit]
    show (prioritize_resources_by_cost cfg.costAnalysisEnabled _).errors = _
    rw [prioritize_errors]
    show _ ++ _ = _
    rw [herr, List.nil_append]
  · rw [hinit]
    show (prioritize_resources_by_cost cfg.costAnalysisEnabled _).ecs_services = _
    rw [prioritize_ecs]
    show (cfg.regions.foldl (processRegion cfg g.dryRun g.maxAgeDays now inv)
        _).fst.ecs_services = _
    rw [hecs, List.nil_append]
  · rw [hinit]
    show (prioritize_resources_by_cost cfg.costAnalysisEnabled _).load_balancers = _
    rw [prioritize_lb]
    show (cfg.regions.foldl (processRegion cfg g.dryRun g.maxAgeDays now inv)
        _).fst.load_balancers = _
    rw [hlb, List.nil_append]
  · rw [hinit]
    show (prioritize_resources_by_cost cfg.costAnalysisEnabled _).elasticsearch_domains = _
    rw [prioritize_es]
    show (cfg.regions.foldl (processRegion cfg g.dryRun g.maxAgeDays now inv)
        _).fst.elasticsearch_domains = _
    rw [hes, List.nil_append]
  · rw [hinit]
    show (prioritize_resources_by_cost cfg.costAnalysisEnabled _).s3_buckets = _
    rw [prioritize_s3]
    show _ ++ _ = _
    rw [hs3b]
    simp
  · intro r hr c hc
    rw [hinit, hcost]
    show assignCostEc2 c ∈ (prioritize_resources_by_cost true _).ec2_instances
    rw [prioritize_ec2_enabled]
    refine (mem_sortDescBy _ _ _).mpr (List.mem_map_of_mem _ ?_)
    show c ∈ (cfg.regions.foldl (processRegion cfg g.dryRun g.maxAgeDays now inv)
        ({ max_age_days := g.maxAgeDays, dry_run := g.dryRun
           correlation_id := uuid }, ([] : List MutCall), g.counts)).fst.ec2_instances
    rw [hec2, List.nil_append]
    exact List.mem_flatten.mpr
      ⟨(shutdown_old_ec2_instances cfg.protection g.dryRun g.maxAgeDays now r (inv.ec2 r)).cands,
       List.mem_map_of_mem _ hr, hc⟩
  · intro r hr c hc
    rw [hinit, hcost]
    show assignCostRds c ∈ (prioritize_resources_by_cost true _).rds_instances
    rw [prioritize_rds_enabled]
    refine (mem_sortDescBy _ _ _).mpr (List.mem_map_of_mem _ ?_)
    show c ∈ (cfg.regions.foldl (processRegion cfg g.dryRun g.maxAgeDays now inv)
        ({ max_age_days := g.maxAgeDays, dry_run := g.dryRun
           correlation_id := uuid }, ([] : List MutCall), g.counts)).fst.rds_instances
    rw [hrds, List.nil_append]
    exact List.mem_flatten.mpr
      ⟨(shutdown_old_rds_instances cfg.protection g.dryRun g.maxAgeDays now r (inv.rds r)).cands,
       List.mem_map_of_mem _ hr, hc⟩
  · intro r hr c hc
    rw [hinit, hcost]
    show assignCostNat c ∈ (prioritize_resources_by_cost true _).nat_gateways
    rw [prioritize_nat_enabled]
    refine (mem_sortDescBy _ _ _).mpr (List.mem_map_of_mem _ ?_)
    show c ∈ (cfg.regions.foldl (processRegion cfg g.dryRun g.maxAgeDays now inv)
        ({ max_age_days := g.maxAgeDays, dry_run := g.dryRun
           correlation_id := uuid }, ([] : List MutCall), g.counts)).fst.nat_gateways
    rw [hnat, List.nil_append]
    exact List.mem_flatten.mpr
      ⟨(cleanup_nat_gateways g.dryRun g.maxAgeDays now r (inv.nat r)).cands,
       List.mem_map_of_mem _ hr, hc⟩
  · intro region e
    unfold cleanup_old_load_balancers
    cases hv : inv.elbv2 region <;> simp [ScanOut.append, scanAll_nil]

/-- Counterexample to C4 as stated: with the classic load-balancer listing
of region `x` failing (`ScanError`), the run completes and region `y`'s
candidate still appears, but the failure is appended to no error list — the
summary's error list is empty, against the claim that every per-unit scan
failure is appended to it. -/
theorem c4_counterexample :
    invScenario.elbClassic "x" = .error "ScanError"
    ∧ (lambda_handler cfgScenario gScenario "u" 79200 {} invScenario).fst.theSummary.errors = []
    ∧ (lambda_handler cfgScenario gScenario "u" 79200 {} invScenario).fst.theSummary.ec2_instances.length
        = 1 :=
  ⟨rfl, by decide, by decide⟩

/-- Witness for C4 at the concrete scenario: the gate passes and the error
list is exactly the per-unit concatenation. -/
theorem c4_fault_isolation_witness :
    (lambda_handler cfgScenario gScenario "u" 79200 {} invScenario).fst.theSummary.errors
      = (cfgScenario.regions.map
          (unitErrors cfgScenario gScenario.dryRun gScenario.maxAgeDays 79200 invScenario)).flatten
        ++ (cleanup_old_s3_buckets cfgScenario.protection cfgScenario.s3Exclusions
              gScenario.dryRun gScenario.maxAgeDays 79200 invScenario.s3).errors :=
  (c4_fault_isolation cfgScenario gScenario "u" 79200 invScenario (by decide) (by decide)).1

/-- Counterexample to C5 as stated: with conservative scheduling at hour 10
the invocation returns the skip response immediately — it carries no summary
and no candidates — although the same inventory scanned at hour 22 yields a
candidate; so a denied window does not "still perform all scanning and
return a summary containing the scanned candidates". -/
theorem c5_counterexample :
    (lambda_handler cfgConservative gScenario "uuid-1" 36000 {} invScenario).fst
      = .skipped "Cleanup skipped - outside scheduled window" "uuid-1" "conservative"
    ∧ (lambda_handler cfgConservative gScenario "uuid-1" 36000 {} invScenario).fst.theSummary.ec2_instances
      = []
    ∧ (lambda_handler cfgConservative gScenario "uuid-1" 79200 {} invScenario).fst.theSummary.ec2_instances.length
      = 1 := by decide

/-- C5 (amended): when the scheduling gate denies the window, the invocation
returns the skip response *before* any scanning — the result carries the
skip message, the correlation id and the scheduling mode, no Action Executor
(mutating) call is issued, and the outcome is independent of the entire
inventory (no scanning is performed at all). -/
theorem c5_schedule_skip (cfg : EnvConfig) (g : GlobalState) (uuid : String) (now : Int)
    (ev : Event) (inv inv' : Inventory)
    (hgate : should_cleanup_based_on_schedule cfg.businessHoursOnly cfg.schedulingMode
        (utcHour now) = false) :
    (lambda_handler cfg g uuid now ev inv).fst
        = .skipped "Cleanup skipped - outside scheduled window" uuid cfg.schedulingMode
    ∧ (lambda_handler cfg g uuid now ev inv).fst.mutations = []
    ∧ lambda_handler cfg g uuid now ev inv = lambda_handler cfg g uuid now ev inv' := by
  unfold lambda_handler
  rw [hgate]
  exact ⟨rfl, rfl, rfl⟩

/-- Witness for C5 at the concrete denied-window scenario. -/
theorem c5_schedule_skip_witness :
    (lambda_handler cfgConservative gScenario "u" 36000 {} invScenario).fst
      = .skipped "Cleanup skipped - outside scheduled window" "u" "conservative" :=
  (c5_schedule_skip cfgConservative gScenario "u" 36000 {} invScenario invScenario (by decide)).1

/-- C8 is a code bug: run-scoped state is NOT constructed fresh per
invocation.  `PERFORMANCE_METRICS['resource_counts']` is a process global
accumulated with `+=`, so two successive invocations with identical inputs
(same event, same inventory, same clock, even the same correlation id)
report different summaries: the first reports an ec2 resource count of 1,
the second of 2, and the two reported counter records differ. -/
theorem c8_global_state_carryover :
    (lambda_handler cfgScenario gScenario "u" 79200 {} invScenario).fst.summaryCounts.ec2 = 1
    ∧ (lambda_handler cfgScenario
        (lambda_handler cfgScenario gScenario "u" 79200 {} invScenario).snd
        "u" 79200 {} invScenario).fst.summaryCounts.ec2 = 2
    ∧ (lambda_handler cfgScenario gScenario "u" 79200 {} invScenario).fst.summaryCounts
        ≠ (lambda_handler cfgScenario
            (lambda_handler cfgScenario gScenario "u" 79200 {} invScenario).snd
            "u" 79200 {} invScenario).fst.summaryCounts := by decide

end AwsShutdown
